import Mathlib

/-!
# Output decoding of the driving model

A shallow embedding of `selfdrive/modeld/models/driving.cc`: the index map over the flat
network output, the hypothesis selection loops, the lead decoder, the valid-length clamp,
the weighted polynomial fit and the desire pulse.

Conventions of the embedding.

* `float` values are elements of an ordered field `α` (exact arithmetic, no NaN, no rounding);
  theorems that need `exp` or `sqrt` instantiate `α` with the reals.
* A `float *` into the network buffers is a function `ℕ → α`; pointer arithmetic `&p[k]` is
  `fun i => p (k + i)`. The local arrays of `fill_path` are lists of their declared length,
  and a fit whose row count leaves them yields `none`.
* Array indices are natural numbers; all index expressions of the source are sums and
  products of non-negative constants, except `(i + 1)*PLAN_MHP_GROUP_SIZE - 1`, which is
  the same in `int` arithmetic once `PLAN_MHP_GROUP_SIZE ≥ 1`.
* Constants and helpers declared in `driving.h` and `commonmodel.h` (not part of the sources)
  are parameters: the layout sizes, `LEAD_MDN_N`, `MDN_GROUP_SIZE`, `MDN_VALS`,
  `MODEL_PATH_DISTANCE`, `MAX_FRAME_DROP`, `sigmoid`, `softplus`; so are the libm functions
  `exp`, `log`, `sqrt` and the constant `M_PI`. Where a claim is about `softplus` itself, the
  form `log(1 + exp(x))` that the spec gives is used.
-/

namespace Driving

/-! ## Output layout (driving.cc lines 12-28) -/

/-- Sizes from `driving.h` that the offset macros of driving.cc are built from. -/
structure LayoutConstants where
  PLAN_MHP_N : ℕ
  PLAN_MHP_GROUP_SIZE : ℕ
  LEAD_MHP_N : ℕ
  LEAD_MHP_GROUP_SIZE : ℕ
  DESIRE_LEN : ℕ
  OTHER_META_SIZE : ℕ
  DESIRE_PRED_SIZE : ℕ
  POSE_SIZE : ℕ
  deriving DecidableEq, Repr

/-- The macro `TRAJECTORY_SIZE` is 33. -/
abbrev TRAJECTORY_SIZE : ℕ := 33

/-- The macro `PLAN_IDX` is 0. -/
def PLAN_IDX (_c : LayoutConstants) : ℕ := 0

/-- The macro `LL_IDX` is `PLAN_IDX + PLAN_MHP_N*PLAN_MHP_GROUP_SIZE`. -/
def LL_IDX (c : LayoutConstants) : ℕ := PLAN_IDX c + c.PLAN_MHP_N * c.PLAN_MHP_GROUP_SIZE

/-- The macro `LL_PROB_IDX` is `LL_IDX + 4*2*2*33`. -/
def LL_PROB_IDX (c : LayoutConstants) : ℕ := LL_IDX c + 4 * 2 * 2 * 33

/-- The macro `RE_IDX` is `LL_PROB_IDX + 4`. -/
def RE_IDX (c : LayoutConstants) : ℕ := LL_PROB_IDX c + 4

/-- The macro `LEAD_IDX` is `RE_IDX + 2*2*2*33`. -/
def LEAD_IDX (c : LayoutConstants) : ℕ := RE_IDX c + 2 * 2 * 2 * 33

/-- The macro `LEAD_PROB_IDX` is `LEAD_MHP_N*LEAD_MHP_GROUP_SIZE` (line 19; it does not
mention `LEAD_IDX`). -/
def LEAD_PROB_IDX (c : LayoutConstants) : ℕ := c.LEAD_MHP_N * c.LEAD_MHP_GROUP_SIZE

/-- The macro `DESIRE_STATE_IDX` is `LEAD_PROB_IDX + 3`. -/
def DESIRE_STATE_IDX (c : LayoutConstants) : ℕ := LEAD_PROB_IDX c + 3

/-- The macro `META_IDX` is `DESIRE_STATE_IDX + DESIRE_LEN`. -/
def META_IDX (c : LayoutConstants) : ℕ := DESIRE_STATE_IDX c + c.DESIRE_LEN

/-- The macro `POSE_IDX` is `META_IDX + OTHER_META_SIZE + DESIRE_PRED_SIZE`. -/
def POSE_IDX (c : LayoutConstants) : ℕ := META_IDX c + c.OTHER_META_SIZE + c.DESIRE_PRED_SIZE

/-- The macro `OUTPUT_SIZE` is `POSE_IDX + POSE_SIZE`. -/
def OUTPUT_SIZE (c : LayoutConstants) : ℕ := POSE_IDX c + c.POSE_SIZE

/-- A layout with the sizes of the upstream header of the same period, used for concrete
evaluations. -/
def sampleLayout : LayoutConstants where
  PLAN_MHP_N := 5
  PLAN_MHP_GROUP_SIZE := 1981
  LEAD_MHP_N := 5
  LEAD_MHP_GROUP_SIZE := 11
  DESIRE_LEN := 8
  OTHER_META_SIZE := 4
  DESIRE_PRED_SIZE := 32
  POSE_SIZE := 12

/-! ## Network output slices and hypothesis selection (driving.cc lines 226-263) -/

/-- The struct `ModelDataRaw` (declared in driving.h): pointers into the flat output. The
fields are those that driving.cc names: `model_eval_frame` assigns `path`, `lane_lines`,
`lane_lines_prob`, `road_edges`, `lead`, `lead_prob`, `meta`, `pose`; `model_publish` reads
`plan`, `left_lane`, `right_lane`, `lead`, `meta`; `posenet_publish` reads `pose`. -/
structure ModelDataRaw (α : Type) where
  path : ℕ → α
  plan : ℕ → α
  left_lane : ℕ → α
  right_lane : ℕ → α
  lane_lines : ℕ → α
  lane_lines_prob : ℕ → α
  road_edges : ℕ → α
  lead : ℕ → α
  lead_prob : ℕ → α
  meta : ℕ → α
  pose : ℕ → α

/-- The plan selection loop of `model_publish` (lines 227-233):
`plan_mhp_max_idx = 0; for i in 1..PLAN_MHP_N-1: if lead[(i+1)*G - 1] > lead[(idx+1)*G - 1]
then idx = i`. Both reads go through `net_outputs.lead`. -/
def plan_mhp_max_idx {α : Type} [LinearOrder α] (PLAN_MHP_N PLAN_MHP_GROUP_SIZE : ℕ)
    (net_outputs : ModelDataRaw α) : ℕ :=
  (List.range' 1 (PLAN_MHP_N - 1)).foldl
    (fun idx i =>
      if net_outputs.lead ((i + 1) * PLAN_MHP_GROUP_SIZE - 1) >
          net_outputs.lead ((idx + 1) * PLAN_MHP_GROUP_SIZE - 1)
      then i else idx) 0

/-- The lead selection loop of `model_publish` (lines 247-253 with `t_offset = 0`, lines
256-262 with `t_offset = 1`): `mdn_max_idx = 0; for i in 1..LEAD_MDN_N-1:
if lead[i*G + 8 + t] > lead[idx*G + 8 + t] then idx = i`. -/
def mdn_max_idx {α : Type} [LinearOrder α] (LEAD_MDN_N MDN_GROUP_SIZE : ℕ)
    (lead : ℕ → α) (t_offset : ℕ) : ℕ :=
  (List.range' 1 (LEAD_MDN_N - 1)).foldl
    (fun idx i =>
      if lead (i * MDN_GROUP_SIZE + 8 + t_offset) > lead (idx * MDN_GROUP_SIZE + 8 + t_offset)
      then i else idx) 0

/-! ## Lead decoding (driving.cc lines 188-201) -/

/-- The fields that `fill_lead` sets on a `LeadData` builder. -/
structure LeadData (α : Type) where
  prob : α
  dist : α
  std : α
  relY : α
  relYStd : α
  relVel : α
  relVelStd : α
  relA : α
  relAStd : α

/-- The function `fill_lead` (lines 188-201). `x_scale` and `y_scale` are both 10.0; the
probability is read at `data[LEAD_MDN_N*MDN_GROUP_SIZE + t_offset]`, the kinematics at the
block of component `mdn_max_idx`. -/
def fill_lead {α : Type} [Field α] (LEAD_MDN_N MDN_GROUP_SIZE MDN_VALS : ℕ)
    (sigmoid softplus : α → α) (data : ℕ → α) (mdn_max_idx : ℕ) (t_offset : ℕ) : LeadData α :=
  let x_scale : α := 10
  let y_scale : α := 10
  { prob := sigmoid (data (LEAD_MDN_N * MDN_GROUP_SIZE + t_offset))
    dist := x_scale * data (mdn_max_idx * MDN_GROUP_SIZE)
    std := x_scale * softplus (data (mdn_max_idx * MDN_GROUP_SIZE + MDN_VALS))
    relY := y_scale * data (mdn_max_idx * MDN_GROUP_SIZE + 1)
    relYStd := y_scale * softplus (data (mdn_max_idx * MDN_GROUP_SIZE + MDN_VALS + 1))
    relVel := data (mdn_max_idx * MDN_GROUP_SIZE + 2)
    relVelStd := softplus (data (mdn_max_idx * MDN_GROUP_SIZE + MDN_VALS + 2))
    relA := data (mdn_max_idx * MDN_GROUP_SIZE + 3)
    relAStd := softplus (data (mdn_max_idx * MDN_GROUP_SIZE + MDN_VALS + 3)) }

/-! ## Valid-length clamp (driving.cc line 237) -/

/-- The clamp of `model_publish`: `fmin(MODEL_PATH_DISTANCE, fmax(5, valid_len))`. -/
def clamp_valid_len {α : Type} [LinearOrderedField α] (MODEL_PATH_DISTANCE : ℕ)
    (valid_len : α) : α :=
  min (MODEL_PATH_DISTANCE : α) (max 5 valid_len)

/-! ## Polynomial fit (driving.cc lines 32-34, 68-75, 133-156) -/

/-- Modelled from the spec: `POLYFIT_DEGREE` is declared in driving.h, which is not part of
the sources. The spec fixes the polynomial degree constant at 4 (three solved coefficients
and the offset), in line with `poly_fit` storing the offset at `out[3]`. -/
abbrev POLYFIT_DEGREE : ℕ := 4

/-- The sample positions that `model_init` writes (line 71):
`X_IDXS[i] = (192.0/1024.0) * i^2`, reading `i**2` as the square of `i`. -/
def X_IDXS {α : Type} [Field α] (i : ℕ) : α := (192 / 1024) * ((i : α) ^ 2)

/-- The sample times that `model_init` writes (line 72): `T_IDXS[i] = (10.0/1024.0) * i^2`. -/
def T_IDXS {α : Type} [Field α] (i : ℕ) : α := (10 / 1024) * ((i : α) ^ 2)

/-- The global matrix `vander` after `model_init` (lines 69-75): rows `i < TRAJECTORY_SIZE`
and columns `j < POLYFIT_DEGREE - 1` hold `pow(X_IDXS[i], POLYFIT_DEGREE-j-1)`; the loop
writes no other entry, and those keep the zero of static storage. -/
def vander {α : Type} [Field α] (i j : ℕ) : α :=
  if i < TRAJECTORY_SIZE ∧ j < POLYFIT_DEGREE - 1 then
    (X_IDXS i : α) ^ (POLYFIT_DEGREE - j - 1)
  else 0

/-- The matrix `lhs` of `poly_fit` (line 143):
`vander.topRows(valid_len).array().colwise() / std.array()`, the first `n` rows of `vander`
with row `i` divided by `std[i]`. -/
def poly_fit_lhs {α : Type} [Field α] (n : ℕ) (std : ℕ → α) : Matrix (Fin n) (Fin 3) α :=
  fun i j => vander i j / std i

/-- The scale of `poly_fit` (line 147):
`1. / (lhs.array()*lhs.array()).sqrt().colwise().sum()`. The square root is taken entry by
entry, before the column sums. -/
def poly_fit_scale {α : Type} [Field α] (sqrt : α → α) {n : ℕ}
    (lhs : Matrix (Fin n) (Fin 3) α) : Fin 3 → α :=
  fun j => 1 / ∑ i, sqrt (lhs i j * lhs i j)

/-- The call `lhs.colPivHouseholderQr().solve(rhs)` of the Eigen library: for a matrix of
full column rank it returns the least-squares solution. In exact arithmetic that is the
solution of the normal equations `(AᵀA) x = Aᵀ b`, computed here by Cramer's rule. -/
def colPivHouseholderQr_solve {α : Type} [Field α] {n : ℕ}
    (A : Matrix (Fin n) (Fin 3) α) (b : Fin n → α) : Fin 3 → α :=
  ((A.transpose * A).det)⁻¹ •
    ((A.transpose * A).adjugate.mulVec (A.transpose.mulVec b))

/-- The function `poly_fit` (lines 133-156). `in_pts` and `in_stds` are the caller's arrays,
`valid_len` the `int` row count. The maps `pts` and `std` cover the first `valid_len`
entries and `vander.topRows(valid_len)` the first `valid_len` rows; a row count that is not
positive or exceeds an array or the `MODEL_PATH_DISTANCE` rows of `vander` leaves the
storage and yields `none`. The result is the caller's point array after the call (the
offset `y0` is subtracted in place through the map) and the four entries of `out`. -/
def poly_fit {α : Type} [Field α] (sqrt : α → α) (MODEL_PATH_DISTANCE : ℕ)
    (in_pts in_stds : List α) (valid_len : ℤ) : Option (List α × List α) :=
  let n := valid_len.toNat
  if 0 < valid_len ∧ n ≤ in_pts.length ∧ n ≤ in_stds.length ∧ n ≤ MODEL_PATH_DISTANCE then
    let y0 := in_pts.getD 0 0
    let pts : ℕ → α := fun i => in_pts.getD i 0 - y0
    let std : ℕ → α := fun i => in_stds.getD i 0
    let lhs := poly_fit_lhs n std
    let rhs : Fin n → α := fun i => pts i / std i
    let scale := poly_fit_scale sqrt lhs
    let lhs' := lhs * Matrix.diagonal scale
    let p := colPivHouseholderQr_solve lhs' rhs
    let p' : Fin 3 → α := fun j => p j * scale j
    some ((in_pts.take n).map (fun x => x - y0) ++ in_pts.drop n, [p' 0, p' 1, p' 2, y0])
  else none

/-- The conversion of a `float` argument to the `int` parameter of `poly_fit`: truncation
toward zero. -/
def float_to_int {α : Type} [LinearOrderedField α] [FloorRing α] (v : α) : ℤ :=
  if 0 ≤ v then ⌊v⌋ else ⌈v⌉

/-- The fields that `fill_path` sets on a `PathData` builder; `stds` and `points` are set
only when the environment variable `DEBUG` is present. -/
structure PathData (α : Type) where
  poly : List α
  prob : α
  std : α
  validLen : α
  stds : Option (List α)
  points : Option (List α)

/-- The function `fill_path` (lines 158-186), with the parameters `valid_len` and `prob` as
the values it publishes and passes on (the locals of the same names declared at lines
163-164 are never assigned). `DEBUG` is whether `getenv("DEBUG")` is non-null; the arrays
are published after the call of `poly_fit`. The result is `none` when `poly_fit` leaves
the 33-entry arrays. -/
def fill_path {α : Type} [LinearOrderedField α] [FloorRing α] (exp sqrt : α → α)
    (MODEL_PATH_DISTANCE : ℕ) (DEBUG : Bool) (data : ℕ → α) (valid_len prob : α) :
    Option (PathData α) :=
  let points_arr := (List.range TRAJECTORY_SIZE).map (fun i => data (16 * i))
  let stds_arr := (List.range TRAJECTORY_SIZE).map (fun i => exp (data (30 * 33 + 16 * i)))
  let std := stds_arr.getD 0 0
  match poly_fit sqrt MODEL_PATH_DISTANCE points_arr stds_arr (float_to_int valid_len) with
  | none => none
  | some (points_arr, poly_arr) =>
    some
      { poly := poly_arr
        prob := prob
        std := std
        validLen := valid_len
        stds := if DEBUG then some stds_arr else none
        points := if DEBUG then some points_arr else none }

/-! ## Meta decoding and publication (driving.cc lines 203-267) -/

/-- The fields that `fill_meta` sets on a `MetaData` builder. -/
structure MetaData (α : Type) where
  desireState : List α
  engagedProb : α
  gasDisengageProb : α
  brakeDisengageProb : α
  steerOverrideProb : α
  desirePrediction : List α

/-- The function `fill_meta` (lines 203-212). -/
def fill_meta {α : Type} (DESIRE_LEN OTHER_META_SIZE DESIRE_PRED_SIZE : ℕ)
    (meta_data : ℕ → α) : MetaData α :=
  { desireState := (List.range DESIRE_LEN).map (fun i => meta_data (0 + i))
    engagedProb := meta_data DESIRE_LEN
    gasDisengageProb := meta_data (DESIRE_LEN + 1)
    brakeDisengageProb := meta_data (DESIRE_LEN + 2)
    steerOverrideProb := meta_data (DESIRE_LEN + 3)
    desirePrediction :=
      (List.range DESIRE_PRED_SIZE).map (fun i => meta_data (DESIRE_LEN + OTHER_META_SIZE + i)) }

/-- Constants of driving.h that `model_publish` and `model_eval_frame` use besides the
layout sizes. -/
structure ModelConstants extends LayoutConstants where
  LEAD_MDN_N : ℕ
  MDN_GROUP_SIZE : ℕ
  MDN_VALS : ℕ
  MODEL_PATH_DISTANCE : ℕ
  MODEL_FRAME_SIZE : ℕ

/-- The helpers of commonmodel.h and libm that the decoder calls. -/
structure FloatFns (α : Type) where
  exp : α → α
  sqrt : α → α
  sigmoid : α → α
  softplus : α → α

/-- The model message that `model_publish` builds. A path is `none` when its fit leaves
the arrays of `fill_path`. -/
structure ModelData (α : Type) where
  frameId : ℕ
  frameAge : ℕ
  frameDropPerc : α
  timestampEof : ℕ
  path : Option (PathData α)
  leftLane : Option (PathData α)
  rightLane : Option (PathData α)
  lead : LeadData α
  leadFuture : LeadData α
  meta : MetaData α

/-- An event as built by `msg.initEvent(valid)`: the validity flag and the payload. -/
structure Event (β : Type) where
  valid : Bool
  body : β

/-- The event that `model_publish` builds (lines 215-264). `frame_id` and `vipc_frame_id`
are `uint32_t`. The path call of line 239 passes the plan block of the selected hypothesis
and the clamped valid length; it passes no probability, which is the parameter
`path_prob`. The lane calls pass `true` (1.0 as a `float`) for `valid_len` and the
literals 1.8 and -1.8 for `prob`. -/
def model_publish_event {α : Type} [LinearOrderedField α] [FloorRing α]
    (c : ModelConstants) (f : FloatFns α) (MAX_FRAME_DROP : α) (DEBUG : Bool) (path_prob : α)
    (vipc_frame_id frame_id : ℕ) (frame_drop : α) (net_outputs : ModelDataRaw α)
    (timestamp_eof : ℕ) : Event (ModelData α) :=
  let frame_age := if frame_id > vipc_frame_id then (frame_id - vipc_frame_id) % 2 ^ 32 else 0
  let plan_idx := plan_mhp_max_idx c.PLAN_MHP_N c.PLAN_MHP_GROUP_SIZE net_outputs
  let valid_len := net_outputs.plan (plan_idx * c.PLAN_MHP_GROUP_SIZE + 15 * 33)
  let valid_len := clamp_valid_len c.MODEL_PATH_DISTANCE valid_len
  let lpath := fill_path f.exp f.sqrt c.MODEL_PATH_DISTANCE DEBUG
    (fun i => net_outputs.plan (plan_idx * c.PLAN_MHP_GROUP_SIZE + i)) valid_len path_prob
  let left_lane := fill_path f.exp f.sqrt c.MODEL_PATH_DISTANCE DEBUG
    net_outputs.left_lane 1 (18 / 10)
  let right_lane := fill_path f.exp f.sqrt c.MODEL_PATH_DISTANCE DEBUG
    net_outputs.right_lane 1 (-(18 / 10))
  let lead := fill_lead c.LEAD_MDN_N c.MDN_GROUP_SIZE c.MDN_VALS f.sigmoid f.softplus
    net_outputs.lead (mdn_max_idx c.LEAD_MDN_N c.MDN_GROUP_SIZE net_outputs.lead 0) 0
  let lead_future := fill_lead c.LEAD_MDN_N c.MDN_GROUP_SIZE c.MDN_VALS f.sigmoid f.softplus
    net_outputs.lead (mdn_max_idx c.LEAD_MDN_N c.MDN_GROUP_SIZE net_outputs.lead 1) 1
  { valid := decide (frame_drop < MAX_FRAME_DROP)
    body :=
      { frameId := vipc_frame_id
        frameAge := frame_age
        frameDropPerc := frame_drop * 100
        timestampEof := timestamp_eof
        path := lpath
        leftLane := left_lane
        rightLane := right_lane
        lead := lead
        leadFuture := lead_future
        meta := fill_meta c.DESIRE_LEN c.OTHER_META_SIZE c.DESIRE_PRED_SIZE net_outputs.meta } }

/-- The function `model_publish` (lines 215-267): the messages sent on `pm`, as the list of
topic and event; one `pm.send("model", msg)` at the end. -/
def model_publish {α : Type} [LinearOrderedField α] [FloorRing α]
    (c : ModelConstants) (f : FloatFns α) (MAX_FRAME_DROP : α) (DEBUG : Bool) (path_prob : α)
    (pm : List (String × Event (ModelData α)))
    (vipc_frame_id frame_id _vipc_dropped_frames : ℕ) (frame_drop : α)
    (net_outputs : ModelDataRaw α) (timestamp_eof : ℕ) :
    List (String × Event (ModelData α)) :=
  pm ++ [("model", model_publish_event c f MAX_FRAME_DROP DEBUG path_prob vipc_frame_id
    frame_id frame_drop net_outputs timestamp_eof)]

/-- The indices of `meta_data` that `fill_meta` reads (lines 204-210): the `DESIRE_LEN`
entries of the desire state from index 0, the four scalars at `DESIRE_LEN + 0..3`, and the
`DESIRE_PRED_SIZE` entries of the desire prediction from `DESIRE_LEN + OTHER_META_SIZE`. -/
def fill_meta_reads (DESIRE_LEN OTHER_META_SIZE DESIRE_PRED_SIZE : ℕ) : List ℕ :=
  (List.range DESIRE_LEN).map (fun i => 0 + i) ++
    [DESIRE_LEN, DESIRE_LEN + 1, DESIRE_LEN + 2, DESIRE_LEN + 3] ++
    (List.range DESIRE_PRED_SIZE).map (fun i => DESIRE_LEN + OTHER_META_SIZE + i)

/-! ## Camera odometry (driving.cc lines 269-299) -/

/-- Modelled from the spec: `softplus` is declared in commonmodel.h, which is not part of
the sources. The spec gives it as the transform `log(1 + exp(x))`; `exp` and `log` are the
libm functions. -/
def softplus {α : Type} [Field α] (exp log : α → α) (x : α) : α := log (1 + exp x)

/-- The fields that `posenet_publish` sets on the camera odometry message. -/
structure CameraOdometry (α : Type) where
  frameId : ℕ
  timestampEof : ℕ
  trans : List α
  rot : List α
  transStd : List α
  rotStd : List α

/-- The event that `posenet_publish` builds (lines 271-296). `M_PI` is the constant of
math.h, `1e-6` the literal floor; `vipc_dropped_frames` is `uint32_t`. -/
def posenet_publish_event {α : Type} [LinearOrderedField α] (softplus : α → α) (M_PI : α)
    (vipc_frame_id vipc_dropped_frames : ℕ) (net_outputs : ModelDataRaw α)
    (timestamp_eof : ℕ) : Event (CameraOdometry α) :=
  let trans_arr := (List.range 3).map (fun i => net_outputs.pose i)
  let trans_std_arr :=
    (List.range 3).map (fun i => softplus (net_outputs.pose (6 + i)) + 1 / 1000000)
  let rot_arr := (List.range 3).map (fun i => M_PI * net_outputs.pose (3 + i) / 180)
  let rot_std_arr :=
    (List.range 3).map
      (fun i => M_PI * (softplus (net_outputs.pose (9 + i)) + 1 / 1000000) / 180)
  { valid := decide (vipc_dropped_frames < 1)
    body :=
      { frameId := vipc_frame_id
        timestampEof := timestamp_eof
        trans := trans_arr
        rot := rot_arr
        transStd := trans_std_arr
        rotStd := rot_std_arr } }

/-- The function `posenet_publish` (lines 269-299): the messages sent on `pm`; one
`pm.send("cameraOdometry", msg)` at the end. -/
def posenet_publish {α : Type} [LinearOrderedField α] (softplus : α → α) (M_PI : α)
    (pm : List (String × Event (CameraOdometry α)))
    (vipc_frame_id _frame_id vipc_dropped_frames : ℕ) (_frame_drop : α)
    (net_outputs : ModelDataRaw α) (timestamp_eof : ℕ) :
    List (String × Event (CameraOdometry α)) :=
  pm ++ [("cameraOdometry", posenet_publish_event softplus M_PI vipc_frame_id
    vipc_dropped_frames net_outputs timestamp_eof)]

/-! ## Model state and frame evaluation (driving.cc lines 36-124) -/

/-- The buffers of `ModelState` that `model_init` allocates and `model_eval_frame` updates,
in the build with `DESIRE` and `TRAFFIC_CONVENTION` defined. -/
structure ModelState (α : Type) where
  input_frames : ℕ → α
  output : ℕ → α
  prev_desire : ℕ → α
  pulse_desire : ℕ → α
  traffic_convention : ℕ → α

/-- The state after `model_init` (lines 36-66): `calloc` zeroes `input_frames` and
`output`, `make_unique<float[]>` value-initialises `prev_desire`, `pulse_desire` and
`traffic_convention` to zero, and one entry of `traffic_convention` is set from `IsRHD`.
The Vandermonde loop of lines 68-75 is the definition `vander`. -/
def model_init {α : Type} [Field α] (is_rhd : Bool) : ModelState α :=
  { input_frames := fun _ => 0
    output := fun _ => 0
    prev_desire := fun _ => 0
    pulse_desire := fun _ => 0
    traffic_convention := fun i =>
      if is_rhd then (if i = 1 then 1 else 0) else (if i = 0 then 1 else 0) }

/-- The function `model_eval_frame` (lines 78-124). `execute` is the executor: from the
input frames, the desire pulse, the traffic convention and the previous output it yields
the new output. `new_frame_buf` is the frame that `frame_prepare` returns. `uninit` is the
content of the local `net_outputs` before its fields are assigned, and `PATH_IDX` the
offset used for `path` (no macro of that name is defined in driving.cc). Iteration `i` of
the desire loop reads and writes index `i` only, so the loop is written entry by entry. -/
def model_eval_frame {α : Type} [LinearOrderedField α] (c : ModelConstants)
    (execute : (ℕ → α) → (ℕ → α) → (ℕ → α) → (ℕ → α) → ℕ → α) (PATH_IDX : ℕ)
    (uninit : ModelDataRaw α) (s : ModelState α) (new_frame_buf : ℕ → α)
    (desire_in : Option (ℕ → α)) : ModelState α × ModelDataRaw α :=
  let pulse_desire : ℕ → α :=
    match desire_in with
    | none => s.pulse_desire
    | some d => fun i =>
      if i < c.DESIRE_LEN then (if d i - s.prev_desire i > 99 / 100 then d i else 0)
      else s.pulse_desire i
  let prev_desire : ℕ → α :=
    match desire_in with
    | none => s.prev_desire
    | some d => fun i => if i < c.DESIRE_LEN then d i else s.prev_desire i
  let shifted : ℕ → α := fun k =>
    if k < c.MODEL_FRAME_SIZE then s.input_frames (c.MODEL_FRAME_SIZE + k) else s.input_frames k
  let input_frames : ℕ → α := fun k =>
    if c.MODEL_FRAME_SIZE ≤ k ∧ k < c.MODEL_FRAME_SIZE + c.MODEL_FRAME_SIZE then
      new_frame_buf (k - c.MODEL_FRAME_SIZE)
    else shifted k
  let output := execute input_frames pulse_desire s.traffic_convention s.output
  let l := c.toLayoutConstants
  ({ input_frames := input_frames
     output := output
     prev_desire := prev_desire
     pulse_desire := pulse_desire
     traffic_convention := s.traffic_convention },
   { uninit with
     path := fun i => output (PATH_IDX + i)
     lane_lines := fun i => output (LL_IDX l + i)
     lane_lines_prob := fun i => output (LL_PROB_IDX l + i)
     road_edges := fun i => output (RE_IDX l + i)
     lead := fun i => output (LEAD_IDX l + i)
     lead_prob := fun i => output (LEAD_PROB_IDX l + i)
     meta := fun i => output (DESIRE_STATE_IDX l + i)
     pose := fun i => output (POSE_IDX l + i) })

/-! ## Concrete inputs used in evaluations -/

/-- A network output over the integers whose plan segment has trailing scalar 1 for
hypothesis 1 (index `2*1981 - 1`) and 0 elsewhere, and whose other segments are all zero. -/
def planFavoursOne : ModelDataRaw ℤ where
  path := fun _ => 0
  plan := fun k => if k = 3961 then 1 else 0
  left_lane := fun _ => 0
  right_lane := fun _ => 0
  lane_lines := fun _ => 0
  lane_lines_prob := fun _ => 0
  road_edges := fun _ => 0
  lead := fun _ => 0
  lead_prob := fun _ => 0
  meta := fun _ => 0
  pose := fun _ => 0

/-- The output `planFavoursOne` with its lead segment replaced: entry `2*1981 - 1` of the
lead segment is 1. The plan segment is unchanged. -/
def leadFavoursOne : ModelDataRaw ℤ :=
  { planFavoursOne with lead := fun k => if k = 3961 then 1 else 0 }

/-- A lead buffer with two components of group size 11 whose weights for the first
horizon (offset 8) tie at the maximum for components 0 and 1; component 2 is lower. -/
def tieLead : ℕ → ℤ := fun k => if k = 8 ∨ k = 19 then 5 else 0

/-- A lead buffer in which only the first-horizon weight of component 0 (entry 8) is
non-zero. -/
def weightOnlyLead {α : Type} [Field α] : ℕ → α := fun k => if k = 8 then 1 else 0

/-- A lead buffer with group size 11 in which component 0 has the largest weight for the
first horizon (entry 8) and component 1 the largest weight for the second (entry 20); the
kinematic entries of the two components differ. -/
def twoHorizonLead : ℕ → ℚ := fun k =>
  if k = 8 then 1 else if k = 20 then 1 else if k < 4 then 2 + k
  else if 11 ≤ k ∧ k < 15 then 7 else 0

/-- A network output whose lead segment is `twoHorizonLead` and whose other segments are
zero. -/
def twoHorizonOutputs : ModelDataRaw ℚ where
  path := fun _ => 0
  plan := fun _ => 0
  left_lane := fun _ => 0
  right_lane := fun _ => 0
  lane_lines := fun _ => 0
  lane_lines_prob := fun _ => 0
  road_edges := fun _ => 0
  lead := twoHorizonLead
  lead_prob := fun _ => 0
  meta := fun _ => 0
  pose := fun _ => 0

/-- Decoder constants with the sizes of the upstream header of the same period. -/
def sampleConstants : ModelConstants where
  toLayoutConstants := sampleLayout
  LEAD_MDN_N := 5
  MDN_GROUP_SIZE := 11
  MDN_VALS := 4
  MODEL_PATH_DISTANCE := 192
  MODEL_FRAME_SIZE := 6

/-- A trajectory block whose point 32 (entry `16*32`) is 1 and whose other entries,
log-uncertainties included, are 0. -/
def spikeData {α : Type} [Field α] : ℕ → α := fun k => if k = 512 then 1 else 0

/-- A network output with every entry zero. -/
def zeroOutputs {α : Type} [Field α] : ModelDataRaw α where
  path := fun _ => 0
  plan := fun _ => 0
  left_lane := fun _ => 0
  right_lane := fun _ => 0
  lane_lines := fun _ => 0
  lane_lines_prob := fun _ => 0
  road_edges := fun _ => 0
  lead := fun _ => 0
  lead_prob := fun _ => 0
  meta := fun _ => 0
  pose := fun _ => 0

/-- A network output whose plan segment holds 100 at entry `15*33` of hypothesis 0 (the
raw valid length) and 0 elsewhere; the other segments are zero. -/
def longPlanOutputs : ModelDataRaw ℚ :=
  { (zeroOutputs : ModelDataRaw ℚ) with plan := fun k => if k = 495 then 100 else 0 }

/-! ## Auxiliary facts about the selection loops -/

/-- Invariant of a first-maximum scan that continues from position `s` with current best
`m`: after `k` more steps the best index is below `s + k`, dominates every index below
`s + k`, and strictly dominates every index before it. -/
theorem scan_first_max {α : Type} [LinearOrder α] (w : ℕ → α) (k s m : ℕ)
    (hm : m < s) (hle : ∀ j, j < s → w j ≤ w m) (hlt : ∀ j, j < m → w j < w m) :
    let r := (List.range' s k).foldl (fun idx i => if w i > w idx then i else idx) m
    r < s + k ∧ (∀ j, j < s + k → w j ≤ w r) ∧ (∀ j, j < r → w j < w r) := by
  induction k generalizing s m with
  | zero => simpa using ⟨hm, hle, hlt⟩
  | succ k ih =>
    simp only [List.range'_succ, List.foldl_cons]
    by_cases h : w s > w m
    · rw [if_pos h]
      have := ih (s + 1) s (Nat.lt_succ_self s)
        (fun j hj => by
          rcases Nat.lt_succ_iff_lt_or_eq.mp hj with hj | rfl
          · exact le_trans (hle j hj) (le_of_lt h)
          · exact le_refl _)
        (fun j hj => lt_of_le_of_lt (hle j hj) h)
      simpa [Nat.add_assoc, Nat.add_comm 1 k] using this
    · rw [if_neg h]
      have := ih (s + 1) m (Nat.lt_succ_of_lt hm)
        (fun j hj => by
          rcases Nat.lt_succ_iff_lt_or_eq.mp hj with hj | rfl
          · exact hle j hj
          · exact not_lt.mp h)
        hlt
      simpa [Nat.add_assoc, Nat.add_comm 1 k] using this

/-- The scan started at index 0 over `n ≥ 1` entries returns the first maximum. -/
theorem scan_first_max_zero {α : Type} [LinearOrder α] (w : ℕ → α) (n : ℕ) (hn : 0 < n) :
    let r := (List.range' 1 (n - 1)).foldl (fun idx i => if w i > w idx then i else idx) 0
    r < n ∧ (∀ j, j < n → w j ≤ w r) ∧ (∀ j, j < r → w j < w r) := by
  have h := scan_first_max w (n - 1) 1 0 Nat.one_pos
    (fun j hj => by
      have : j = 0 := by omega
      subst this
      exact le_refl _)
    (fun j hj => absurd hj (Nat.not_lt_zero j))
  have e : 1 + (n - 1) = n := by omega
  simpa [e] using h

/-! ## Auxiliary facts about the polynomial fit -/

/-- A right-hand side in the column space is solved exactly when the Gram matrix is
invertible. -/
theorem solve_mulVec {α : Type} [Field α] {n : ℕ} (A : Matrix (Fin n) (Fin 3) α)
    (w : Fin 3 → α) (h : (A.transpose * A).det ≠ 0) :
    colPivHouseholderQr_solve A (A.mulVec w) = w := by
  unfold colPivHouseholderQr_solve
  rw [Matrix.mulVec_mulVec w A.transpose A, Matrix.mulVec_mulVec, Matrix.adjugate_mul,
    Matrix.smul_mulVec_assoc, Matrix.one_mulVec, smul_smul, inv_mul_cancel₀ h, one_smul]

/-- The modelled solver satisfies the normal equations when the Gram matrix is invertible. -/
theorem solve_normal_eq {α : Type} [Field α] {n : ℕ} (A : Matrix (Fin n) (Fin 3) α)
    (b : Fin n → α) (h : (A.transpose * A).det ≠ 0) :
    (A.transpose * A).mulVec (colPivHouseholderQr_solve A b) = A.transpose.mulVec b := by
  unfold colPivHouseholderQr_solve
  rw [Matrix.mulVec_smul, Matrix.mulVec_mulVec, Matrix.mul_adjugate, Matrix.smul_mulVec_assoc,
    Matrix.one_mulVec, smul_smul, inv_mul_cancel₀ h, one_smul]

/-- Over an ordered field the Gram matrix of an injective matrix is invertible. -/
theorem gram_det_ne_zero {α : Type} [LinearOrderedField α] {n : ℕ}
    (A : Matrix (Fin n) (Fin 3) α) (hinj : ∀ v, A.mulVec v = 0 → v = 0) :
    (A.transpose * A).det ≠ 0 := by
  intro h
  obtain ⟨v, hv, hGv⟩ := Matrix.exists_mulVec_eq_zero_iff.mpr h
  apply hv
  apply hinj
  have h1 : Matrix.dotProduct v ((A.transpose * A).mulVec v) = 0 := by
    rw [hGv]; simp
  rw [← Matrix.mulVec_mulVec, Matrix.dotProduct_mulVec, Matrix.vecMul_transpose] at h1
  exact Matrix.dotProduct_self_eq_zero.mp h1

/-- The scale of a column with a non-zero entry is non-zero, for a square root with
`sqrt (x*x) = |x|`. -/
theorem poly_fit_scale_ne_zero {α : Type} [LinearOrderedField α] (sqrt : α → α)
    (hsqrt : ∀ x, sqrt (x * x) = |x|) {n : ℕ} (lhs : Matrix (Fin n) (Fin 3) α) (j : Fin 3)
    (h : ∃ i, lhs i j ≠ 0) : poly_fit_scale sqrt lhs j ≠ 0 := by
  obtain ⟨i, hi⟩ := h
  unfold poly_fit_scale
  simp only [hsqrt]
  have hpos : 0 < ∑ k, |lhs k j| :=
    Finset.sum_pos' (fun k _ => abs_nonneg _) ⟨i, Finset.mem_univ i, abs_pos.mpr hi⟩
  exact one_div_ne_zero (ne_of_gt hpos)

/-- Rescaling the columns by non-zero factors keeps a matrix injective. -/
theorem scaled_columns_injective {α : Type} [Field α] {n : ℕ}
    (lhs : Matrix (Fin n) (Fin 3) α) (s : Fin 3 → α) (hs : ∀ j, s j ≠ 0)
    (hinj : ∀ u, lhs.mulVec u = 0 → u = 0) :
    ∀ v, (lhs * Matrix.diagonal s).mulVec v = 0 → v = 0 := by
  intro v hv
  rw [← Matrix.mulVec_mulVec] at hv
  have h := hinj _ hv
  funext j
  have hj := congrFun h j
  simp only [Matrix.mulVec_diagonal, Pi.zero_apply] at hj
  exact (mul_eq_zero.mp hj).resolve_left (hs j)

/-- Entry `(i, j)` of `vander` for a filled row. -/
theorem vander_entry {α : Type} [Field α] (i : ℕ) (hi : i < 33) (j : Fin 3) :
    (vander i j : α) = X_IDXS i ^ (3 - (j : ℕ)) := by
  have hj : (j : ℕ) < 3 := j.isLt
  unfold vander
  rw [if_pos ⟨hi, by simp [POLYFIT_DEGREE]⟩]
  congr 1
  simp only [POLYFIT_DEGREE]
  omega

/-- Row `i` of the weighted basis matrix applied to a coefficient vector. -/
theorem weighted_vander_mulVec {α : Type} [Field α] {n : ℕ} (hn : n ≤ 33) (std : ℕ → α)
    (u : Fin 3 → α) (i : Fin n) :
    (Matrix.mulVec (poly_fit_lhs n std) u) i =
      (u 0 * X_IDXS i ^ 3 + u 1 * X_IDXS i ^ 2 + u 2 * X_IDXS i) / std i := by
  have hi : (i : ℕ) < 33 := lt_of_lt_of_le i.isLt hn
  simp only [poly_fit_lhs, Matrix.mulVec, Matrix.dotProduct, Fin.sum_univ_three,
    vander_entry _ hi]
  simp
  ring

/-- With at least four rows the weighted basis matrix is injective: rows 1, 2, 3 sit at
three distinct non-zero sample positions. -/
theorem weighted_vander_injective {α : Type} [LinearOrderedField α] {n : ℕ} (h4 : 4 ≤ n)
    (hn : n ≤ 33) (std : ℕ → α) (hstd : ∀ i, i < n → std i ≠ 0) :
    ∀ u, Matrix.mulVec (poly_fit_lhs n std) u = 0 →
      u = 0 := by
  intro u hu
  have e1 := congrFun hu ⟨1, by omega⟩
  have e2 := congrFun hu ⟨2, by omega⟩
  have e3 := congrFun hu ⟨3, by omega⟩
  rw [weighted_vander_mulVec hn] at e1 e2 e3
  simp only [Pi.zero_apply, div_eq_zero_iff, hstd 1 (by omega), hstd 2 (by omega),
    hstd 3 (by omega), or_false, X_IDXS] at e1 e2 e3
  norm_num at e1 e2 e3
  funext j
  fin_cases j <;> simp <;> linarith

/-- Every column scale of the weighted basis matrix with at least two rows is non-zero. -/
theorem weighted_vander_scale_ne_zero {α : Type} [LinearOrderedField α] (sqrt : α → α)
    (hsqrt : ∀ x, sqrt (x * x) = |x|) {n : ℕ} (h2 : 2 ≤ n) (hn : n ≤ 33) (std : ℕ → α)
    (hstd : ∀ i, i < n → std i ≠ 0) (j : Fin 3) :
    poly_fit_scale sqrt (poly_fit_lhs n std) j ≠ 0 := by
  apply poly_fit_scale_ne_zero sqrt hsqrt
  refine ⟨⟨1, by omega⟩, ?_⟩
  have h1 : (1 : ℕ) < 33 := by omega
  simp only [poly_fit_lhs, vander_entry 1 h1]
  exact div_ne_zero (pow_ne_zero _ (by norm_num [X_IDXS])) (hstd 1 (by omega))

/-- The rescaled solve followed by the un-scaling returns the coefficients of a cubic
without constant term that the right-hand side was sampled from. -/
theorem fit_core_exact {α : Type} [LinearOrderedField α] (sqrt : α → α)
    (hsqrt : ∀ x, sqrt (x * x) = |x|) {n : ℕ} (h4 : 4 ≤ n) (hn : n ≤ 33) (std : ℕ → α)
    (hstd : ∀ i, i < n → std i ≠ 0) (a b c : α) (j : Fin 3) :
    colPivHouseholderQr_solve
        ((poly_fit_lhs n std) *
          Matrix.diagonal
            (poly_fit_scale sqrt (poly_fit_lhs n std)))
        (fun i : Fin n =>
          (a * X_IDXS i ^ 3 + b * X_IDXS i ^ 2 + c * X_IDXS i) / std i) j *
      poly_fit_scale sqrt (poly_fit_lhs n std) j =
      ![a, b, c] j := by
  set lhs : Matrix (Fin n) (Fin 3) α := poly_fit_lhs n std with hlhs
  set s := poly_fit_scale sqrt lhs with hs
  have hs0 : ∀ j, s j ≠ 0 := weighted_vander_scale_ne_zero sqrt hsqrt (by omega) hn std hstd
  have hinj := scaled_columns_injective lhs s hs0
    (weighted_vander_injective h4 hn std hstd)
  have hdet := gram_det_ne_zero _ hinj
  have hrhs : (fun i : Fin n =>
      (a * X_IDXS i ^ 3 + b * X_IDXS i ^ 2 + c * X_IDXS i) / std i) =
      (lhs * Matrix.diagonal s).mulVec (fun j => ![a, b, c] j / s j) := by
    funext i
    rw [← Matrix.mulVec_mulVec, hlhs, weighted_vander_mulVec hn]
    simp only [Matrix.mulVec_diagonal]
    have e0 : s 0 * (![a, b, c] 0 / s 0) = a := by
      simp [mul_div_cancel₀ _ (hs0 0)]
    have e1 : s 1 * (![a, b, c] 1 / s 1) = b := by
      simp [mul_div_cancel₀ _ (hs0 1)]
    have e2 : s 2 * (![a, b, c] 2 / s 2) = c := by
      simp [mul_div_cancel₀ _ (hs0 2)]
    rw [e0, e1, e2]
  rw [hrhs, solve_mulVec _ _ hdet]
  exact div_mul_cancel₀ _ (hs0 j)

/-- Reading entry `i < m` of a list built over `List.range m`. -/
theorem getD_map_range {α : Type} (f : ℕ → α) (m i : ℕ) (d : α) (hi : i < m) :
    ((List.range m).map f).getD i d = f i := by
  simp [List.getD, hi]

/-- The fit over `4 ≤ n ≤ 33` rows of points sampled from a cubic returns that cubic. -/
theorem poly_fit_exact {α : Type} [LinearOrderedField α] (sqrt : α → α)
    (hsqrt : ∀ x, sqrt (x * x) = |x|) (MODEL_PATH_DISTANCE : ℕ) (in_pts in_stds : List α)
    (valid_len : ℤ) (a b c d : α) (h4 : 4 ≤ valid_len.toNat) (h33 : valid_len.toNat ≤ 33)
    (hp : valid_len.toNat ≤ in_pts.length) (hs : valid_len.toNat ≤ in_stds.length)
    (hM : valid_len.toNat ≤ MODEL_PATH_DISTANCE)
    (hstd : ∀ i, i < valid_len.toNat → in_stds.getD i 0 ≠ 0)
    (hpts : ∀ i, i < valid_len.toNat →
      in_pts.getD i 0 = a * X_IDXS i ^ 3 + b * X_IDXS i ^ 2 + c * X_IDXS i + d) :
    (poly_fit sqrt MODEL_PATH_DISTANCE in_pts in_stds valid_len).map Prod.snd =
      some [a, b, c, d] := by
  have hv : 0 < valid_len := by omega
  have hy0 : in_pts.getD 0 0 = d := by
    rw [hpts 0 (by omega)]
    simp [X_IDXS]
  have hrhs : (fun i : Fin valid_len.toNat =>
      (in_pts.getD i 0 - in_pts.getD 0 0) / in_stds.getD i 0) =
      (fun i : Fin valid_len.toNat =>
        (a * X_IDXS i ^ 3 + b * X_IDXS i ^ 2 + c * X_IDXS i) / in_stds.getD i 0) := by
    funext i
    rw [hy0, hpts i i.isLt]
    congr 1
    ring
  have hcore := fit_core_exact sqrt hsqrt h4 h33 (fun i => in_stds.getD i 0) hstd a b c
  unfold poly_fit
  simp only
  rw [if_pos ⟨hv, hp, hs, hM⟩]
  simp only [Option.map_some']
  rw [hrhs, hcore 0, hcore 1, hcore 2, hy0]
  simp


/-- The value of `poly_fit` when the row count stays inside the arrays. -/
theorem poly_fit_eq_some {α : Type} [Field α] (sqrt : α → α) (MODEL_PATH_DISTANCE : ℕ)
    (in_pts in_stds : List α) (valid_len : ℤ) (hv : 0 < valid_len)
    (hp : valid_len.toNat ≤ in_pts.length) (hs : valid_len.toNat ≤ in_stds.length)
    (hM : valid_len.toNat ≤ MODEL_PATH_DISTANCE) :
    poly_fit sqrt MODEL_PATH_DISTANCE in_pts in_stds valid_len =
      some ((in_pts.take valid_len.toNat).map (fun x => x - in_pts.getD 0 0) ++
          in_pts.drop valid_len.toNat,
        [colPivHouseholderQr_solve
            (poly_fit_lhs valid_len.toNat (fun i => in_stds.getD i 0) *
              Matrix.diagonal (poly_fit_scale sqrt
                (poly_fit_lhs valid_len.toNat (fun i => in_stds.getD i 0))))
            (fun i : Fin valid_len.toNat =>
              (in_pts.getD i 0 - in_pts.getD 0 0) / in_stds.getD i 0) 0 *
          poly_fit_scale sqrt (poly_fit_lhs valid_len.toNat (fun i => in_stds.getD i 0)) 0,
         colPivHouseholderQr_solve
            (poly_fit_lhs valid_len.toNat (fun i => in_stds.getD i 0) *
              Matrix.diagonal (poly_fit_scale sqrt
                (poly_fit_lhs valid_len.toNat (fun i => in_stds.getD i 0))))
            (fun i : Fin valid_len.toNat =>
              (in_pts.getD i 0 - in_pts.getD 0 0) / in_stds.getD i 0) 1 *
          poly_fit_scale sqrt (poly_fit_lhs valid_len.toNat (fun i => in_stds.getD i 0)) 1,
         colPivHouseholderQr_solve
            (poly_fit_lhs valid_len.toNat (fun i => in_stds.getD i 0) *
              Matrix.diagonal (poly_fit_scale sqrt
                (poly_fit_lhs valid_len.toNat (fun i => in_stds.getD i 0))))
            (fun i : Fin valid_len.toNat =>
              (in_pts.getD i 0 - in_pts.getD 0 0) / in_stds.getD i 0) 2 *
          poly_fit_scale sqrt (poly_fit_lhs valid_len.toNat (fun i => in_stds.getD i 0)) 2,
         in_pts.getD 0 0]) := by
  unfold poly_fit
  simp only
  rw [if_pos ⟨hv, hp, hs, hM⟩]

/-- A right-hand side with a single non-zero entry, at a row other than row 0, gives a
fit that is not identically zero. -/
theorem fit_core_ne_zero {α : Type} [LinearOrderedField α] (sqrt : α → α)
    (hsqrt : ∀ x, sqrt (x * x) = |x|) {n : ℕ} (h4 : 4 ≤ n) (hn : n ≤ 33) (std : ℕ → α)
    (hstd : ∀ i, i < n → std i ≠ 0) (rhs : Fin n → α) (i0 : Fin n) (hi0 : (i0 : ℕ) ≠ 0)
    (hr : ∀ i, i ≠ i0 → rhs i = 0) (hr0 : rhs i0 ≠ 0) :
    ∃ j, colPivHouseholderQr_solve
        (poly_fit_lhs n std * Matrix.diagonal (poly_fit_scale sqrt (poly_fit_lhs n std)))
        rhs j * poly_fit_scale sqrt (poly_fit_lhs n std) j ≠ 0 := by
  set lhs : Matrix (Fin n) (Fin 3) α := poly_fit_lhs n std with hlhs
  set s := poly_fit_scale sqrt lhs with hs
  have hs0 : ∀ j, s j ≠ 0 := weighted_vander_scale_ne_zero sqrt hsqrt (by omega) hn std hstd
  have hinj := scaled_columns_injective lhs s hs0
    (weighted_vander_injective h4 hn std hstd)
  have hdet := gram_det_ne_zero _ hinj
  by_contra hall
  push_neg at hall
  have hp : colPivHouseholderQr_solve (lhs * Matrix.diagonal s) rhs = 0 := by
    funext j
    exact (mul_eq_zero.mp (hall j)).resolve_right (hs0 j)
  have hne := solve_normal_eq (lhs * Matrix.diagonal s) rhs hdet
  rw [hp, Matrix.mulVec_zero] at hne
  have h2 := congrFun hne 2
  simp only [Pi.zero_apply, Matrix.mulVec, Matrix.dotProduct, Matrix.transpose_apply,
    Matrix.mul_diagonal] at h2
  rw [Finset.sum_eq_single i0 (fun i _ hi => by rw [hr i hi, mul_zero])
    (fun h => absurd (Finset.mem_univ i0) h)] at h2
  have hi33 : (i0 : ℕ) < 33 := lt_of_lt_of_le i0.isLt hn
  have hx : (X_IDXS (i0 : ℕ) : α) ≠ 0 := by
    unfold X_IDXS
    have : ((i0 : ℕ) : α) ≠ 0 := Nat.cast_ne_zero.mpr hi0
    positivity
  have hl : lhs i0 2 ≠ 0 := by
    rw [hlhs]
    simp only [poly_fit_lhs, vander_entry _ hi33]
    exact div_ne_zero (pow_ne_zero _ hx) (hstd _ i0.isLt)
  exact mul_ne_zero (mul_ne_zero hl (hs0 2)) hr0 h2.symm

/-- Truncation of a natural number is that number. -/
theorem float_to_int_natCast {α : Type} [LinearOrderedField α] [FloorRing α] (k : ℕ) :
    float_to_int (k : α) = k := by
  simp [float_to_int]

/-- The coefficients that `fill_path` publishes are those of its `poly_fit` call. -/
theorem fill_path_poly {α : Type} [LinearOrderedField α] [FloorRing α] (exp sqrt : α → α)
    (MODEL_PATH_DISTANCE : ℕ) (DEBUG : Bool) (data : ℕ → α) (valid_len prob : α) :
    (fill_path exp sqrt MODEL_PATH_DISTANCE DEBUG data valid_len prob).map (fun p => p.poly) =
      (poly_fit sqrt MODEL_PATH_DISTANCE
        ((List.range TRAJECTORY_SIZE).map (fun i => data (16 * i)))
        ((List.range TRAJECTORY_SIZE).map (fun i => exp (data (30 * 33 + 16 * i))))
        (float_to_int valid_len)).map Prod.snd := by
  unfold fill_path
  simp only
  split <;> simp_all

/-- The weighted basis matrix depends on the sigmas of its rows only. -/
theorem poly_fit_lhs_congr {α : Type} [Field α] (n : ℕ) (std std' : ℕ → α)
    (h : ∀ i, i < n → std i = std' i) : poly_fit_lhs n std = poly_fit_lhs n std' := by
  funext i j
  simp only [poly_fit_lhs, h i i.isLt]

/-- The list that `poly_fit` leaves in the caller's point array, entry by entry. -/
theorem take_map_append_drop {α : Type} (f : ℕ → α) (g : α → α) (m n : ℕ) :
    (((List.range m).map f).take n).map g ++ ((List.range m).map f).drop n =
      (List.range m).map (fun i => if i < n then g (f i) else f i) := by
  apply List.ext_getElem?
  intro i
  by_cases hi : i < m
  · by_cases hn : i < n
    · rw [List.getElem?_append_left (by simp; omega)]
      simp [List.getElem?_take, hn, hi]
    · rw [List.getElem?_append_right (by simp; omega)]
      simp only [List.length_map, List.length_take, List.length_range, List.getElem?_drop]
      have e : n + (i - min n m) = i := by omega
      rw [e]
      simp [hi, hn]
  · rw [List.getElem?_eq_none (by simp; omega), List.getElem?_eq_none (by simp; omega)]

/-- The value of `fill_path` when the truncated valid length stays inside the arrays. -/
theorem fill_path_eq_some {α : Type} [LinearOrderedField α] [FloorRing α]
    (exp sqrt : α → α) (MODEL_PATH_DISTANCE : ℕ) (DEBUG : Bool) (data : ℕ → α)
    (valid_len prob : α) (h0 : 0 < float_to_int valid_len)
    (h33 : (float_to_int valid_len).toNat ≤ TRAJECTORY_SIZE)
    (hM : (float_to_int valid_len).toNat ≤ MODEL_PATH_DISTANCE) :
    ∃ poly_arr : List α,
      fill_path exp sqrt MODEL_PATH_DISTANCE DEBUG data valid_len prob =
        some
          { poly := poly_arr
            prob := prob
            std := exp (data (30 * 33 + 16 * 0))
            validLen := valid_len
            stds := if DEBUG then
              some ((List.range TRAJECTORY_SIZE).map (fun i => exp (data (30 * 33 + 16 * i))))
              else none
            points := if DEBUG then
              some ((List.range TRAJECTORY_SIZE).map (fun i =>
                if i < (float_to_int valid_len).toNat then data (16 * i) - data 0
                else data (16 * i)))
              else none } := by
  have hy : ((List.range TRAJECTORY_SIZE).map (fun i => data (16 * i))).getD 0 0 = data 0 := by
    rw [getD_map_range _ TRAJECTORY_SIZE _ _ (by decide)]
  have hs : ((List.range TRAJECTORY_SIZE).map
      (fun i => exp (data (30 * 33 + 16 * i)))).getD 0 0 = exp (data (30 * 33 + 16 * 0)) := by
    rw [getD_map_range _ TRAJECTORY_SIZE _ _ (by decide)]
  unfold fill_path
  simp only
  rw [poly_fit_eq_some sqrt MODEL_PATH_DISTANCE _ _ _ h0 (by simpa using h33)
    (by simpa using h33) hM]
  simp only [hy, hs, take_map_append_drop]
  exact ⟨_, rfl⟩

/-- The logistic function takes values strictly between 0 and 1. -/
theorem logistic_range (x : ℝ) :
    0 < 1 / (1 + Real.exp (-x)) ∧ 1 / (1 + Real.exp (-x)) < 1 := by
  have h := Real.exp_pos (-x)
  constructor
  · positivity
  · rw [div_lt_one (by positivity)]
    linarith

/-- A valid length that truncates to more than 33 rows makes the fit of `fill_path` leave
its arrays. -/
theorem fill_path_eq_none {α : Type} [LinearOrderedField α] [FloorRing α]
    (exp sqrt : α → α) (MODEL_PATH_DISTANCE : ℕ) (DEBUG : Bool) (data : ℕ → α)
    (valid_len prob : α) (h : TRAJECTORY_SIZE < (float_to_int valid_len).toNat) :
    fill_path exp sqrt MODEL_PATH_DISTANCE DEBUG data valid_len prob = none := by
  unfold fill_path poly_fit
  simp only [List.length_map, List.length_range]
  rw [if_neg (by omega)]

/-- The transform `log(1 + exp(x))` is strictly positive over the reals. -/
theorem softplus_pos (x : ℝ) : 0 < softplus Real.exp Real.log x := by
  unfold softplus
  exact Real.log_pos (by linarith [Real.exp_pos x])

/-! ## Claims -/

/-- C1 (evaluation of the code): for every choice of the layout constants the first five
offsets are contiguous, but `LEAD_PROB_IDX` is `LEAD_MHP_N*LEAD_MHP_GROUP_SIZE` without the
`LEAD_IDX` base, hence differs from `LEAD_IDX + LEAD_MHP_N*LEAD_MHP_GROUP_SIZE`, and
`OUTPUT_SIZE` falls short of the sum of the segment lengths by exactly `LEAD_IDX`. -/
theorem layout_lead_prob_idx_misses_lead_base (c : LayoutConstants) :
    PLAN_IDX c = 0 ∧
    LL_IDX c = PLAN_IDX c + c.PLAN_MHP_N * c.PLAN_MHP_GROUP_SIZE ∧
    LL_PROB_IDX c = LL_IDX c + 528 ∧
    RE_IDX c = LL_PROB_IDX c + 4 ∧
    LEAD_IDX c = RE_IDX c + 264 ∧
    LEAD_PROB_IDX c = c.LEAD_MHP_N * c.LEAD_MHP_GROUP_SIZE ∧
    LEAD_PROB_IDX c ≠ LEAD_IDX c + c.LEAD_MHP_N * c.LEAD_MHP_GROUP_SIZE ∧
    OUTPUT_SIZE c + LEAD_IDX c =
      c.PLAN_MHP_N * c.PLAN_MHP_GROUP_SIZE + 528 + 4 + 264 +
        c.LEAD_MHP_N * c.LEAD_MHP_GROUP_SIZE + 3 + c.DESIRE_LEN +
        (c.OTHER_META_SIZE + c.DESIRE_PRED_SIZE) + c.POSE_SIZE ∧
    OUTPUT_SIZE c ≠
      c.PLAN_MHP_N * c.PLAN_MHP_GROUP_SIZE + 528 + 4 + 264 +
        c.LEAD_MHP_N * c.LEAD_MHP_GROUP_SIZE + 3 + c.DESIRE_LEN +
        (c.OTHER_META_SIZE + c.DESIRE_PRED_SIZE) + c.POSE_SIZE := by
  refine ⟨rfl, rfl, rfl, rfl, rfl, rfl, ?_, ?_, ?_⟩ <;>
    simp only [PLAN_IDX, LL_IDX, LL_PROB_IDX, RE_IDX, LEAD_IDX, LEAD_PROB_IDX,
      DESIRE_STATE_IDX, META_IDX, POSE_IDX, OUTPUT_SIZE] <;> omega

/-- C2 (evaluation of the code): with five plan hypotheses of group size 1981, a plan
segment whose trailing scalar is largest at hypothesis 1 and an all-zero lead segment,
`model_publish` selects hypothesis 0; putting the same scalars into the lead segment
instead makes it select hypothesis 1. The selection reads the lead segment, not the plan
segment. -/
theorem plan_selection_reads_lead_segment :
    plan_mhp_max_idx 5 1981 planFavoursOne = 0 ∧
    planFavoursOne.plan ((0 + 1) * 1981 - 1) < planFavoursOne.plan ((1 + 1) * 1981 - 1) ∧
    (∀ k, leadFavoursOne.plan k = planFavoursOne.plan k) ∧
    plan_mhp_max_idx 5 1981 leadFavoursOne = 1 := by
  refine ⟨by decide, by decide, fun k => rfl, by decide⟩

/-- C3: for every lead buffer and horizon offset (0 and 1 in particular), with at least
one mixture component, the lead selection loop returns an index `m < LEAD_MDN_N` whose
weight `lead[m*MDN_GROUP_SIZE + 8 + t]` is at least every component's weight and strictly
above the weight of every earlier component; when exactly two components `i < j` attain
the maximum it returns `i`, and with `LEAD_MDN_N = 1` it returns 0. -/
theorem lead_selection_first_max {α : Type} [LinearOrder α] (LEAD_MDN_N MDN_GROUP_SIZE : ℕ)
    (lead : ℕ → α) (t_offset : ℕ) (hN : 0 < LEAD_MDN_N) :
    mdn_max_idx LEAD_MDN_N MDN_GROUP_SIZE lead t_offset < LEAD_MDN_N ∧
    (∀ j, j < LEAD_MDN_N → lead (j * MDN_GROUP_SIZE + 8 + t_offset) ≤
      lead (mdn_max_idx LEAD_MDN_N MDN_GROUP_SIZE lead t_offset * MDN_GROUP_SIZE + 8
        + t_offset)) ∧
    (∀ j, j < mdn_max_idx LEAD_MDN_N MDN_GROUP_SIZE lead t_offset →
      lead (j * MDN_GROUP_SIZE + 8 + t_offset) <
      lead (mdn_max_idx LEAD_MDN_N MDN_GROUP_SIZE lead t_offset * MDN_GROUP_SIZE + 8
        + t_offset)) ∧
    (∀ i j, i < j → j < LEAD_MDN_N →
      lead (i * MDN_GROUP_SIZE + 8 + t_offset) = lead (j * MDN_GROUP_SIZE + 8 + t_offset) →
      (∀ k, k < LEAD_MDN_N →
        lead (k * MDN_GROUP_SIZE + 8 + t_offset) ≤ lead (i * MDN_GROUP_SIZE + 8 + t_offset)) →
      (∀ k, k < LEAD_MDN_N →
        lead (k * MDN_GROUP_SIZE + 8 + t_offset) = lead (i * MDN_GROUP_SIZE + 8 + t_offset) →
        k = i ∨ k = j) →
      mdn_max_idx LEAD_MDN_N MDN_GROUP_SIZE lead t_offset = i) ∧
    (LEAD_MDN_N = 1 → mdn_max_idx LEAD_MDN_N MDN_GROUP_SIZE lead t_offset = 0) := by
  obtain ⟨h1, h2, h3⟩ :=
    scan_first_max_zero (fun i => lead (i * MDN_GROUP_SIZE + 8 + t_offset)) LEAD_MDN_N hN
  have h1 : mdn_max_idx LEAD_MDN_N MDN_GROUP_SIZE lead t_offset < LEAD_MDN_N := h1
  have h2 : ∀ j, j < LEAD_MDN_N → lead (j * MDN_GROUP_SIZE + 8 + t_offset) ≤
      lead (mdn_max_idx LEAD_MDN_N MDN_GROUP_SIZE lead t_offset * MDN_GROUP_SIZE + 8
        + t_offset) := h2
  have h3 : ∀ j, j < mdn_max_idx LEAD_MDN_N MDN_GROUP_SIZE lead t_offset →
      lead (j * MDN_GROUP_SIZE + 8 + t_offset) <
      lead (mdn_max_idx LEAD_MDN_N MDN_GROUP_SIZE lead t_offset * MDN_GROUP_SIZE + 8
        + t_offset) := h3
  refine ⟨h1, h2, h3, ?_, ?_⟩
  · intro i j hij hj heq hmax honly
    have hi : i < LEAD_MDN_N := lt_trans hij hj
    have hm := le_antisymm (hmax _ h1) (h2 i hi)
    rcases honly _ h1 hm with h | h
    · exact h
    · exfalso
      have := h3 i (h ▸ hij)
      rw [hm] at this
      exact lt_irrefl _ this
  · intro hone
    omega

/-- Witness for C3: three components of group size 11 with the weights of components 0 and
1 tied at the maximum; the loop returns 0. -/
theorem lead_selection_first_max_witness : mdn_max_idx 3 11 tieLead 0 = 0 :=
  (lead_selection_first_max 3 11 tieLead 0 (by decide)).2.2.2.1 0 1 (by decide) (by decide)
    (by decide) (by decide) (by decide)

/-- C4 (as stated, refuted): over the reals with the logistic sigmoid, five components of
group size 11 and a lead buffer whose only non-zero entry is the first-horizon weight of
component 0, the probability that `fill_lead` publishes is not the sigmoid of the winning
component's weight. -/
theorem lead_prob_not_sigmoid_of_winning_weight :
    (fill_lead 5 11 4 (fun x : ℝ => 1 / (1 + Real.exp (-x)))
        (fun x : ℝ => Real.log (1 + Real.exp x)) weightOnlyLead
        (mdn_max_idx 5 11 (weightOnlyLead : ℕ → ℝ) 0) 0).prob ≠
      (fun x : ℝ => 1 / (1 + Real.exp (-x)))
        (weightOnlyLead (mdn_max_idx 5 11 (weightOnlyLead : ℕ → ℝ) 0 * 11 + 8 + 0)) := by
  have hm : mdn_max_idx 5 11 (weightOnlyLead : ℕ → ℝ) 0 = 0 := by
    norm_num [mdn_max_idx, List.range', weightOnlyLead]
  rw [hm]
  norm_num [fill_lead, weightOnlyLead]
  intro h
  have h0 : (1 + Real.exp (-1)) = 2 := by
    have := congrArg (fun x : ℝ => x⁻¹) h
    simpa using this.symm
  have h1 : Real.exp (-1) = 1 := by linarith
  have h2 := (Real.exp_eq_one_iff (-1)).mp h1
  norm_num at h2

/-- C4 (amended): for every lead buffer the probability of the current lead published by
`model_publish` is the sigmoid of `lead[LEAD_MDN_N*MDN_GROUP_SIZE + 0]`, the entry that
follows the component blocks, and `fill_lead` yields the same probability whatever
component index it is given. -/
theorem lead_prob_sigmoid_of_entry_after_blocks {α : Type} [LinearOrderedField α]
    [FloorRing α] (c : ModelConstants) (f : FloatFns α) (MAX_FRAME_DROP : α) (DEBUG : Bool)
    (path_prob : α) (vipc_frame_id frame_id : ℕ) (frame_drop : α)
    (net_outputs : ModelDataRaw α) (timestamp_eof : ℕ) :
    (model_publish_event c f MAX_FRAME_DROP DEBUG path_prob vipc_frame_id frame_id frame_drop
        net_outputs timestamp_eof).body.lead.prob =
      f.sigmoid (net_outputs.lead (c.LEAD_MDN_N * c.MDN_GROUP_SIZE + 0)) ∧
    ∀ i j : ℕ,
      (fill_lead c.LEAD_MDN_N c.MDN_GROUP_SIZE c.MDN_VALS f.sigmoid f.softplus
          net_outputs.lead i 0).prob =
        (fill_lead c.LEAD_MDN_N c.MDN_GROUP_SIZE c.MDN_VALS f.sigmoid f.softplus
          net_outputs.lead j 0).prob :=
  ⟨rfl, fun _ _ => rfl⟩

/-- C5: when at least two components exist, component 0 has the strictly largest weight at
offset 8 and component 1 the strictly largest weight at offset 9, the loops of
`model_publish` select 0 and 1, the lead message holds `dist = 10*lead[0]`,
`relY = 10*lead[1]`, `relVel = lead[2]`, `relA = lead[3]`, and the lead-future message
holds the same fields of component 1 (entries `MDN_GROUP_SIZE + 0..3`). -/
theorem lead_horizons_selected_independently {α : Type} [LinearOrderedField α]
    [FloorRing α] (c : ModelConstants) (f : FloatFns α) (MAX_FRAME_DROP : α) (DEBUG : Bool)
    (path_prob : α) (vipc_frame_id frame_id : ℕ) (frame_drop : α)
    (net_outputs : ModelDataRaw α) (timestamp_eof : ℕ)
    (hN : 1 < c.LEAD_MDN_N)
    (hnow : ∀ j, j < c.LEAD_MDN_N → j ≠ 0 →
      net_outputs.lead (j * c.MDN_GROUP_SIZE + 8) < net_outputs.lead 8)
    (hfut : ∀ j, j < c.LEAD_MDN_N → j ≠ 1 →
      net_outputs.lead (j * c.MDN_GROUP_SIZE + 9) < net_outputs.lead (c.MDN_GROUP_SIZE + 9)) :
    mdn_max_idx c.LEAD_MDN_N c.MDN_GROUP_SIZE net_outputs.lead 0 = 0 ∧
    mdn_max_idx c.LEAD_MDN_N c.MDN_GROUP_SIZE net_outputs.lead 1 = 1 ∧
    (model_publish_event c f MAX_FRAME_DROP DEBUG path_prob vipc_frame_id frame_id frame_drop
        net_outputs timestamp_eof).body.lead.dist = 10 * net_outputs.lead 0 ∧
    (model_publish_event c f MAX_FRAME_DROP DEBUG path_prob vipc_frame_id frame_id frame_drop
        net_outputs timestamp_eof).body.lead.relY = 10 * net_outputs.lead 1 ∧
    (model_publish_event c f MAX_FRAME_DROP DEBUG path_prob vipc_frame_id frame_id frame_drop
        net_outputs timestamp_eof).body.lead.relVel = net_outputs.lead 2 ∧
    (model_publish_event c f MAX_FRAME_DROP DEBUG path_prob vipc_frame_id frame_id frame_drop
        net_outputs timestamp_eof).body.lead.relA = net_outputs.lead 3 ∧
    (model_publish_event c f MAX_FRAME_DROP DEBUG path_prob vipc_frame_id frame_id frame_drop
        net_outputs timestamp_eof).body.leadFuture.dist =
      10 * net_outputs.lead c.MDN_GROUP_SIZE ∧
    (model_publish_event c f MAX_FRAME_DROP DEBUG path_prob vipc_frame_id frame_id frame_drop
        net_outputs timestamp_eof).body.leadFuture.relY =
      10 * net_outputs.lead (c.MDN_GROUP_SIZE + 1) ∧
    (model_publish_event c f MAX_FRAME_DROP DEBUG path_prob vipc_frame_id frame_id frame_drop
        net_outputs timestamp_eof).body.leadFuture.relVel =
      net_outputs.lead (c.MDN_GROUP_SIZE + 2) ∧
    (model_publish_event c f MAX_FRAME_DROP DEBUG path_prob vipc_frame_id frame_id frame_drop
        net_outputs timestamp_eof).body.leadFuture.relA =
      net_outputs.lead (c.MDN_GROUP_SIZE + 3) := by
  have h0 : mdn_max_idx c.LEAD_MDN_N c.MDN_GROUP_SIZE net_outputs.lead 0 = 0 := by
    obtain ⟨hlt, hle, -⟩ :=
      scan_first_max_zero (fun i => net_outputs.lead (i * c.MDN_GROUP_SIZE + 8 + 0))
        c.LEAD_MDN_N (by omega)
    by_contra hne
    have h1 := hnow _ hlt hne
    have h2 := hle 0 (by omega)
    simp only [Nat.zero_mul, Nat.zero_add, Nat.add_zero] at h2
    exact absurd (lt_of_le_of_lt h2 h1) (lt_irrefl _)
  have h1 : mdn_max_idx c.LEAD_MDN_N c.MDN_GROUP_SIZE net_outputs.lead 1 = 1 := by
    obtain ⟨hlt, hle, -⟩ :=
      scan_first_max_zero (fun i => net_outputs.lead (i * c.MDN_GROUP_SIZE + 8 + 1))
        c.LEAD_MDN_N (by omega)
    by_contra hne
    have h1 := hfut _ hlt hne
    have h2 := hle 1 hN
    simp only [Nat.one_mul, Nat.add_assoc] at h2
    exact absurd (lt_of_le_of_lt h2 h1) (lt_irrefl _)
  refine ⟨h0, h1, ?_, ?_, ?_, ?_, ?_, ?_, ?_, ?_⟩ <;>
    simp [model_publish_event, fill_lead, h0, h1]

/-- Witness for C5: the sample constants (five components of group size 11), a lead buffer
whose first-horizon weight is largest for component 0 and whose second-horizon weight is
largest for component 1. -/
theorem lead_horizons_selected_independently_witness :
    mdn_max_idx 5 11 twoHorizonLead 0 = 0 ∧
    mdn_max_idx 5 11 twoHorizonLead 1 = 1 ∧
    (model_publish_event sampleConstants ⟨id, id, id, id⟩ (1 / 20) false 1 105 110 0
        twoHorizonOutputs 0).body.lead.dist = 10 * twoHorizonLead 0 ∧
    (model_publish_event sampleConstants ⟨id, id, id, id⟩ (1 / 20) false 1 105 110 0
        twoHorizonOutputs 0).body.leadFuture.dist = 10 * twoHorizonLead 11 := by
  have h := lead_horizons_selected_independently sampleConstants
    (⟨id, id, id, id⟩ : FloatFns ℚ) (1 / 20) false 1 105 110 0 twoHorizonOutputs 0
    (by decide)
    (by
      intro j hj hne
      have hj : j < 5 := hj
      interval_cases j <;> simp_all [twoHorizonOutputs, twoHorizonLead, sampleConstants])
    (by
      intro j hj hne
      have hj : j < 5 := hj
      interval_cases j <;> simp_all [twoHorizonOutputs, twoHorizonLead, sampleConstants])
  exact ⟨h.1, h.2.1, h.2.2.1, h.2.2.2.2.2.2.1⟩

/-- C6: when `MODEL_PATH_DISTANCE` is at least 20, for every raw valid length `v` the
clamp of `model_publish` is `min(MODEL_PATH_DISTANCE, max(5, v))`, lies in
`[5, MODEL_PATH_DISTANCE]`, equals `v` when `v` is in that range, and maps -100, 0, 5, 20,
`MODEL_PATH_DISTANCE`, `MODEL_PATH_DISTANCE + 50` to 5, 5, 5, 20, `MODEL_PATH_DISTANCE`,
`MODEL_PATH_DISTANCE`; a published path carries the clamped value of the selected
hypothesis' entry `15*33`. -/
theorem valid_len_clamp_range {α : Type} [LinearOrderedField α] [FloorRing α]
    (c : ModelConstants) (f : FloatFns α) (MAX_FRAME_DROP : α) (DEBUG : Bool)
    (path_prob : α) (vipc_frame_id frame_id : ℕ) (frame_drop : α)
    (net_outputs : ModelDataRaw α) (timestamp_eof : ℕ) (v : α)
    (hM : 20 ≤ c.MODEL_PATH_DISTANCE) :
    clamp_valid_len c.MODEL_PATH_DISTANCE v = min (c.MODEL_PATH_DISTANCE : α) (max 5 v) ∧
    5 ≤ clamp_valid_len c.MODEL_PATH_DISTANCE v ∧
    clamp_valid_len c.MODEL_PATH_DISTANCE v ≤ (c.MODEL_PATH_DISTANCE : α) ∧
    (5 ≤ v → v ≤ (c.MODEL_PATH_DISTANCE : α) → clamp_valid_len c.MODEL_PATH_DISTANCE v = v) ∧
    clamp_valid_len c.MODEL_PATH_DISTANCE (-100 : α) = 5 ∧
    clamp_valid_len c.MODEL_PATH_DISTANCE (0 : α) = 5 ∧
    clamp_valid_len c.MODEL_PATH_DISTANCE (5 : α) = 5 ∧
    clamp_valid_len c.MODEL_PATH_DISTANCE (20 : α) = 20 ∧
    clamp_valid_len c.MODEL_PATH_DISTANCE (c.MODEL_PATH_DISTANCE : α) =
      (c.MODEL_PATH_DISTANCE : α) ∧
    clamp_valid_len c.MODEL_PATH_DISTANCE ((c.MODEL_PATH_DISTANCE : α) + 50) =
      (c.MODEL_PATH_DISTANCE : α) ∧
    ∀ p, (model_publish_event c f MAX_FRAME_DROP DEBUG path_prob vipc_frame_id frame_id
        frame_drop net_outputs timestamp_eof).body.path = some p →
      p.validLen = clamp_valid_len c.MODEL_PATH_DISTANCE
        (net_outputs.plan (plan_mhp_max_idx c.PLAN_MHP_N c.PLAN_MHP_GROUP_SIZE net_outputs *
          c.PLAN_MHP_GROUP_SIZE + 15 * 33)) := by
  have hM' : (20 : α) ≤ (c.MODEL_PATH_DISTANCE : α) := by exact_mod_cast hM
  have h5 : (5 : α) ≤ (c.MODEL_PATH_DISTANCE : α) := by linarith
  refine ⟨rfl, ?_, ?_, ?_, ?_, ?_, ?_, ?_, ?_, ?_, ?_⟩
  · exact le_min h5 (le_max_left _ _)
  · exact min_le_left _ _
  · intro h1 h2
    simp [clamp_valid_len, max_eq_right h1, min_eq_right h2]
  · have : max (5 : α) (-100) = 5 := max_eq_left (by norm_num)
    simp [clamp_valid_len, this, min_eq_right h5]
  · have : max (5 : α) 0 = 5 := max_eq_left (by norm_num)
    simp [clamp_valid_len, this, min_eq_right h5]
  · simp [clamp_valid_len, min_eq_right h5]
  · have : max (5 : α) 20 = 20 := max_eq_right (by norm_num)
    simp [clamp_valid_len, this, min_eq_right hM']
  · simp [clamp_valid_len, max_eq_right h5]
  · have : max (5 : α) ((c.MODEL_PATH_DISTANCE : α) + 50) = (c.MODEL_PATH_DISTANCE : α) + 50 :=
      max_eq_right (by linarith)
    simp [clamp_valid_len, this]
  · intro p hp
    simp only [model_publish_event, fill_path] at hp
    split at hp
    · exact absurd hp (by simp)
    · simp only [Option.some.injEq] at hp
      rw [← hp]

/-- Witness for C6: `MODEL_PATH_DISTANCE = 192` and the raw value 20 over the rationals. -/
theorem valid_len_clamp_range_witness :
    clamp_valid_len 192 (20 : ℚ) = 20 ∧ clamp_valid_len 192 (-100 : ℚ) = 5 ∧
    clamp_valid_len 192 ((192 : ℚ) + 50) = 192 := by
  have h := valid_len_clamp_range sampleConstants (⟨id, id, id, id⟩ : FloatFns ℚ) (1 / 20)
    false 1 105 110 0 twoHorizonOutputs 0 (20 : ℚ) (by decide)
  refine ⟨h.2.2.2.2.2.2.2.1, h.2.2.2.2.1, ?_⟩
  have h2 := h.2.2.2.2.2.2.2.2.2.1
  simpa [sampleConstants] using h2

/-- C7 (as stated, refuted): over the reals, for the trajectory block whose only non-zero
point is point 32 (all sigmas 1), the coefficients that `fill_path` publishes with valid
length 5 differ from those it publishes with valid length 33: the valid length changes
which points enter the least-squares system. -/
theorem fill_path_valid_len_changes_fit :
    (fill_path Real.exp Real.sqrt 192 false (spikeData : ℕ → ℝ) 5 1).map
        (fun p => p.poly) ≠
      (fill_path Real.exp Real.sqrt 192 false (spikeData : ℕ → ℝ) 33 1).map
        (fun p => p.poly) := by
  have hsqrt : ∀ x : ℝ, Real.sqrt (x * x) = |x| := Real.sqrt_mul_self_eq_abs
  have e5 : float_to_int (5 : ℝ) = 5 := by exact_mod_cast float_to_int_natCast (α := ℝ) 5
  have e33 : float_to_int (33 : ℝ) = 33 := by exact_mod_cast float_to_int_natCast (α := ℝ) 33
  have hstd : ∀ i, i < 33 →
      ((List.range TRAJECTORY_SIZE).map
        (fun i => Real.exp ((spikeData : ℕ → ℝ) (30 * 33 + 16 * i)))).getD i 0 = 1 := by
    intro i hi
    rw [getD_map_range _ TRAJECTORY_SIZE _ _ hi]
    have : 30 * 33 + 16 * i ≠ 512 := by omega
    simp [spikeData, this]
  have hpts : ∀ i, i < 33 →
      ((List.range TRAJECTORY_SIZE).map (fun i => (spikeData : ℕ → ℝ) (16 * i))).getD i 0 =
        if i = 32 then 1 else 0 := by
    intro i hi
    rw [getD_map_range _ TRAJECTORY_SIZE _ _ hi]
    have : 16 * i = 512 ↔ i = 32 := by omega
    simp [spikeData, this]
  -- the fit over the first five points is the zero polynomial
  have h5 := poly_fit_exact Real.sqrt hsqrt 192
    ((List.range TRAJECTORY_SIZE).map (fun i => (spikeData : ℕ → ℝ) (16 * i)))
    ((List.range TRAJECTORY_SIZE).map
      (fun i => Real.exp ((spikeData : ℕ → ℝ) (30 * 33 + 16 * i))))
    5 0 0 0 0 (by decide) (by decide) (by simp [TRAJECTORY_SIZE]) (by simp [TRAJECTORY_SIZE])
    (by decide)
    (fun i hi => by
      have hi : i < 5 := hi
      rw [hstd i (by omega)]; exact one_ne_zero)
    (fun i hi => by
      have hi : i < 5 := hi
      rw [hpts i (by omega), if_neg (by omega)]; simp)
  -- the fit over all 33 points is not
  obtain ⟨j, hj⟩ := fit_core_ne_zero Real.sqrt hsqrt (n := 33) (by decide) (by decide)
    (fun i => ((List.range TRAJECTORY_SIZE).map
      (fun i => Real.exp ((spikeData : ℕ → ℝ) (30 * 33 + 16 * i)))).getD i 0)
    (fun i hi => by beta_reduce; rw [hstd i hi]; exact one_ne_zero)
    (fun i : Fin 33 =>
      (((List.range TRAJECTORY_SIZE).map (fun i => (spikeData : ℕ → ℝ) (16 * i))).getD i 0 -
        ((List.range TRAJECTORY_SIZE).map (fun i => (spikeData : ℕ → ℝ) (16 * i))).getD 0 0) /
      ((List.range TRAJECTORY_SIZE).map
        (fun i => Real.exp ((spikeData : ℕ → ℝ) (30 * 33 + 16 * i)))).getD i 0)
    ⟨32, by decide⟩ (by decide)
    (fun i hi => by
      have hi' : (i : ℕ) ≠ 32 := fun h => hi (Fin.ext h)
      beta_reduce
      rw [hpts i i.isLt, hpts 0 (by decide), if_neg hi']
      simp)
    (by
      beta_reduce
      rw [hpts 32 (by decide), hpts 0 (by decide), hstd 32 (by decide)]
      norm_num)
  have h33 := poly_fit_eq_some Real.sqrt 192
    ((List.range TRAJECTORY_SIZE).map (fun i => (spikeData : ℕ → ℝ) (16 * i)))
    ((List.range TRAJECTORY_SIZE).map
      (fun i => Real.exp ((spikeData : ℕ → ℝ) (30 * 33 + 16 * i))))
    33 (by decide) (by simp [TRAJECTORY_SIZE]) (by simp [TRAJECTORY_SIZE]) (by decide)
  rw [fill_path_poly, fill_path_poly, e5, e33, h5, h33]
  simp only [Option.map_some', ne_eq, Option.some.injEq, List.cons.injEq, and_true]
  rintro ⟨h0, h1, h2, -⟩
  fin_cases j
  · exact hj h0.symm
  · exact hj h1.symm
  · exact hj h2.symm

/-- C7 (amended): when the valid length truncates to a row count `n` with
`1 ≤ n ≤ 33` (and `n ≤ MODEL_PATH_DISTANCE`), the coefficients that `fill_path` publishes
are those of the least-squares system built from the first `n` trajectory points, the
first `n` sigmas and the first `n` rows of the basis matrix, followed by the first point;
they do not change when points and sigmas at index `n` and above change. -/
theorem fill_path_fit_over_leading_rows {α : Type} [LinearOrderedField α] [FloorRing α]
    (exp sqrt : α → α) (MODEL_PATH_DISTANCE : ℕ) (DEBUG : Bool) (data : ℕ → α)
    (valid_len prob : α) (h0 : 0 < float_to_int valid_len)
    (h33 : (float_to_int valid_len).toNat ≤ TRAJECTORY_SIZE)
    (hM : (float_to_int valid_len).toNat ≤ MODEL_PATH_DISTANCE) :
    (fill_path exp sqrt MODEL_PATH_DISTANCE DEBUG data valid_len prob).map (fun p => p.poly) =
      some
        [colPivHouseholderQr_solve
            (poly_fit_lhs (float_to_int valid_len).toNat (fun i => exp (data (30 * 33 + 16 * i))) *
              Matrix.diagonal (poly_fit_scale sqrt (poly_fit_lhs (float_to_int valid_len).toNat
                (fun i => exp (data (30 * 33 + 16 * i))))))
            (fun i : Fin (float_to_int valid_len).toNat =>
              (data (16 * i) - data 0) / exp (data (30 * 33 + 16 * i))) 0 *
          poly_fit_scale sqrt (poly_fit_lhs (float_to_int valid_len).toNat
            (fun i => exp (data (30 * 33 + 16 * i)))) 0,
         colPivHouseholderQr_solve
            (poly_fit_lhs (float_to_int valid_len).toNat (fun i => exp (data (30 * 33 + 16 * i))) *
              Matrix.diagonal (poly_fit_scale sqrt (poly_fit_lhs (float_to_int valid_len).toNat
                (fun i => exp (data (30 * 33 + 16 * i))))))
            (fun i : Fin (float_to_int valid_len).toNat =>
              (data (16 * i) - data 0) / exp (data (30 * 33 + 16 * i))) 1 *
          poly_fit_scale sqrt (poly_fit_lhs (float_to_int valid_len).toNat
            (fun i => exp (data (30 * 33 + 16 * i)))) 1,
         colPivHouseholderQr_solve
            (poly_fit_lhs (float_to_int valid_len).toNat (fun i => exp (data (30 * 33 + 16 * i))) *
              Matrix.diagonal (poly_fit_scale sqrt (poly_fit_lhs (float_to_int valid_len).toNat
                (fun i => exp (data (30 * 33 + 16 * i))))))
            (fun i : Fin (float_to_int valid_len).toNat =>
              (data (16 * i) - data 0) / exp (data (30 * 33 + 16 * i))) 2 *
          poly_fit_scale sqrt (poly_fit_lhs (float_to_int valid_len).toNat
            (fun i => exp (data (30 * 33 + 16 * i)))) 2,
         data 0] ∧
    ∀ data' : ℕ → α,
      (∀ i, i < (float_to_int valid_len).toNat →
        data' (16 * i) = data (16 * i) ∧ data' (30 * 33 + 16 * i) = data (30 * 33 + 16 * i)) →
      (fill_path exp sqrt MODEL_PATH_DISTANCE DEBUG data' valid_len prob).map
          (fun p => p.poly) =
        (fill_path exp sqrt MODEL_PATH_DISTANCE DEBUG data valid_len prob).map
          (fun p => p.poly) := by
  have key : ∀ d : ℕ → α,
      (fill_path exp sqrt MODEL_PATH_DISTANCE DEBUG d valid_len prob).map (fun p => p.poly) =
      some
        [colPivHouseholderQr_solve
            (poly_fit_lhs (float_to_int valid_len).toNat (fun i => exp (d (30 * 33 + 16 * i))) *
              Matrix.diagonal (poly_fit_scale sqrt (poly_fit_lhs (float_to_int valid_len).toNat
                (fun i => exp (d (30 * 33 + 16 * i))))))
            (fun i : Fin (float_to_int valid_len).toNat =>
              (d (16 * i) - d 0) / exp (d (30 * 33 + 16 * i))) 0 *
          poly_fit_scale sqrt (poly_fit_lhs (float_to_int valid_len).toNat
            (fun i => exp (d (30 * 33 + 16 * i)))) 0,
         colPivHouseholderQr_solve
            (poly_fit_lhs (float_to_int valid_len).toNat (fun i => exp (d (30 * 33 + 16 * i))) *
              Matrix.diagonal (poly_fit_scale sqrt (poly_fit_lhs (float_to_int valid_len).toNat
                (fun i => exp (d (30 * 33 + 16 * i))))))
            (fun i : Fin (float_to_int valid_len).toNat =>
              (d (16 * i) - d 0) / exp (d (30 * 33 + 16 * i))) 1 *
          poly_fit_scale sqrt (poly_fit_lhs (float_to_int valid_len).toNat
            (fun i => exp (d (30 * 33 + 16 * i)))) 1,
         colPivHouseholderQr_solve
            (poly_fit_lhs (float_to_int valid_len).toNat (fun i => exp (d (30 * 33 + 16 * i))) *
              Matrix.diagonal (poly_fit_scale sqrt (poly_fit_lhs (float_to_int valid_len).toNat
                (fun i => exp (d (30 * 33 + 16 * i))))))
            (fun i : Fin (float_to_int valid_len).toNat =>
              (d (16 * i) - d 0) / exp (d (30 * 33 + 16 * i))) 2 *
          poly_fit_scale sqrt (poly_fit_lhs (float_to_int valid_len).toNat
            (fun i => exp (d (30 * 33 + 16 * i)))) 2,
         d 0] := by
    intro d
    have hpos : 0 < (float_to_int valid_len).toNat := by omega
    have hl : poly_fit_lhs (float_to_int valid_len).toNat
        (fun i => ((List.range TRAJECTORY_SIZE).map
          (fun i => exp (d (30 * 33 + 16 * i)))).getD i 0) =
        poly_fit_lhs (float_to_int valid_len).toNat (fun i => exp (d (30 * 33 + 16 * i))) :=
      poly_fit_lhs_congr _ _ _ (fun i hi => getD_map_range _ _ _ _ (lt_of_lt_of_le hi h33))
    have hy : ((List.range TRAJECTORY_SIZE).map (fun i => d (16 * i))).getD 0 0 = d 0 := by
      rw [getD_map_range _ TRAJECTORY_SIZE _ _ (by decide)]
    have hr : (fun i : Fin (float_to_int valid_len).toNat =>
        (((List.range TRAJECTORY_SIZE).map (fun i => d (16 * i))).getD i 0 -
          ((List.range TRAJECTORY_SIZE).map (fun i => d (16 * i))).getD 0 0) /
        ((List.range TRAJECTORY_SIZE).map (fun i => exp (d (30 * 33 + 16 * i)))).getD i 0) =
        (fun i : Fin (float_to_int valid_len).toNat =>
          (d (16 * i) - d 0) / exp (d (30 * 33 + 16 * i))) := by
      funext i
      rw [hy, getD_map_range _ TRAJECTORY_SIZE _ _ (lt_of_lt_of_le i.isLt h33),
        getD_map_range _ TRAJECTORY_SIZE _ _ (lt_of_lt_of_le i.isLt h33)]
    rw [fill_path_poly, poly_fit_eq_some sqrt MODEL_PATH_DISTANCE _ _ _ h0
      (by simpa using h33) (by simpa using h33) hM]
    simp only [Option.map_some']
    rw [hl, hr, hy]
  refine ⟨key data, ?_⟩
  intro data' hagree
  have hpos : 0 < (float_to_int valid_len).toNat := by omega
  have hl : poly_fit_lhs (float_to_int valid_len).toNat
      (fun i => exp (data' (30 * 33 + 16 * i))) =
      poly_fit_lhs (float_to_int valid_len).toNat (fun i => exp (data (30 * 33 + 16 * i))) :=
    poly_fit_lhs_congr _ _ _ (fun i hi => by rw [(hagree i hi).2])
  have hz : data' 0 = data 0 := by simpa using (hagree 0 hpos).1
  have hr : (fun i : Fin (float_to_int valid_len).toNat =>
      (data' (16 * i) - data' 0) / exp (data' (30 * 33 + 16 * i))) =
      (fun i : Fin (float_to_int valid_len).toNat =>
        (data (16 * i) - data 0) / exp (data (30 * 33 + 16 * i))) := by
    funext i
    rw [hz, (hagree i i.isLt).1, (hagree i i.isLt).2]
  rw [key data', key data, hl, hr, hz]

/-- Witness for C7 (amended): with valid length 5 the block whose only non-zero point is
point 32 gets the same coefficients as the all-zero block. -/
theorem fill_path_fit_over_leading_rows_witness :
    (fill_path (fun _ => (1 : ℚ)) (fun x => |x|) 192 false (fun _ => 0) 5 1).map
        (fun p => p.poly) =
      (fill_path (fun _ => (1 : ℚ)) (fun x => |x|) 192 false spikeData 5 1).map
        (fun p => p.poly) :=
  (fill_path_fit_over_leading_rows (fun _ => (1 : ℚ)) (fun x => |x|) 192 false spikeData 5 1
    (by simp [float_to_int]) (by simp [float_to_int, TRAJECTORY_SIZE])
    (by simp [float_to_int])).2 (fun _ => 0)
    (fun i hi => by
      have hi : i < 5 := by simpa [float_to_int] using hi
      have h1 : 16 * i ≠ 512 := by omega
      have h2 : 30 * 33 + 16 * i ≠ 512 := by omega
      simp [spikeData, h1, h2])

/-- C8: in exact real arithmetic, for every cubic `a*x^3 + b*x^2 + c*x + d` and every
uniform positive sigma, `poly_fit` over the 33 points `points[i] = cubic(X_IDXS[i])` (with
`X_IDXS[i] = (192/1024)*i^2` and a basis matrix of at least 33 rows) returns
`[a, b, c, d]`, the offset `d` last. -/
theorem poly_fit_recovers_cubic (MODEL_PATH_DISTANCE : ℕ) (a b c d sigma : ℝ)
    (hsigma : 0 < sigma) (hM : 33 ≤ MODEL_PATH_DISTANCE) :
    (poly_fit Real.sqrt MODEL_PATH_DISTANCE
        ((List.range 33).map
          (fun i => a * X_IDXS i ^ 3 + b * X_IDXS i ^ 2 + c * X_IDXS i + d))
        (List.replicate 33 sigma) 33).map Prod.snd = some [a, b, c, d] ∧
    ∀ i : ℕ, (X_IDXS i : ℝ) = 192 / 1024 * (i : ℝ) ^ 2 := by
  refine ⟨?_, fun i => rfl⟩
  apply poly_fit_exact Real.sqrt Real.sqrt_mul_self_eq_abs MODEL_PATH_DISTANCE _ _ 33 a b c d
  · decide
  · decide
  · simp
  · simp
  · exact hM
  · intro i hi
    have hi : i < 33 := hi
    have hrep : (List.replicate 33 sigma).getD i 0 = sigma := by
      rw [List.getD_eq_getElem?_getD, List.getElem?_replicate, if_pos hi]
      rfl
    rw [hrep]
    exact ne_of_gt hsigma
  · intro i hi
    have hi : i < 33 := hi
    rw [getD_map_range _ 33 _ _ hi]

/-- Witness for C8: the cubic `x^3 + 2*x^2 + 3*x + 4` with sigma `1/2` and 192 rows. -/
theorem poly_fit_recovers_cubic_witness :
    (poly_fit Real.sqrt 192
        ((List.range 33).map
          (fun i => (1 : ℝ) * X_IDXS i ^ 3 + 2 * X_IDXS i ^ 2 + 3 * X_IDXS i + 4))
        (List.replicate 33 (1 / 2)) 33).map Prod.snd = some [1, 2, 3, 4] :=
  (poly_fit_recovers_cubic 192 1 2 3 4 (1 / 2) (by norm_num) (by decide)).1

/-- C9 (as stated, refuted): over the reals, for the weighted basis matrix of the first
three rows with sigma 1, the scale that `poly_fit` applies to the last column is not the
reciprocal of the column's root-sum-of-squares. -/
theorem poly_fit_scale_not_root_sum_squares :
    poly_fit_scale Real.sqrt (poly_fit_lhs 3 (fun _ => (1 : ℝ))) 2 ≠
      1 / Real.sqrt (∑ i : Fin 3, (poly_fit_lhs 3 (fun _ => (1 : ℝ)) i 2) ^ 2) := by
  have hL : poly_fit_scale Real.sqrt (poly_fit_lhs 3 (fun _ => (1 : ℝ))) 2 = 16 / 15 := by
    simp only [poly_fit_scale, Real.sqrt_mul_self_eq_abs, Fin.sum_univ_three, poly_fit_lhs]
    norm_num [vander, X_IDXS, abs_of_nonneg]
  have hS : (∑ i : Fin 3, (poly_fit_lhs 3 (fun _ => (1 : ℝ)) i 2) ^ 2) = 153 / 256 := by
    simp only [Fin.sum_univ_three, poly_fit_lhs]
    norm_num [vander, X_IDXS]
  rw [hL, hS]
  intro h
  have h1 : Real.sqrt (153 / 256) = 15 / 16 := by
    generalize Real.sqrt (153 / 256) = y at h
    have hne : y ≠ 0 := by
      intro h0
      rw [h0] at h
      norm_num at h
    field_simp at h
    linarith
  have h2 := Real.sq_sqrt (show (0 : ℝ) ≤ 153 / 256 by norm_num)
  rw [h1] at h2
  norm_num at h2

/-- C9 (amended): in `poly_fit` over the reals, the scale applied to column `j` of a
weighted basis matrix `lhs` is the reciprocal of the column's sum of absolute values,
`1 / (sum over rows i of |lhs(i,j)|)`, so that after rescaling a column that is not all
zero has absolute values summing to 1; and the first three returned coefficients are the
solution of the rescaled system multiplied by that same per-column scale, the fourth the
first point. -/
theorem poly_fit_scale_reciprocal_abs_sum {n : ℕ} (lhs : Matrix (Fin n) (Fin 3) ℝ)
    (j : Fin 3) :
    poly_fit_scale Real.sqrt lhs j = 1 / ∑ i, |lhs i j| ∧
    ((∑ i, |lhs i j|) ≠ 0 →
      ∑ i, |(lhs * Matrix.diagonal (poly_fit_scale Real.sqrt lhs)) i j| = 1) ∧
    ∀ (MODEL_PATH_DISTANCE : ℕ) (in_pts in_stds : List ℝ) (valid_len : ℤ)
      (r : List ℝ × List ℝ),
      poly_fit Real.sqrt MODEL_PATH_DISTANCE in_pts in_stds valid_len = some r →
      r.2 =
        [colPivHouseholderQr_solve
            (poly_fit_lhs valid_len.toNat (fun i => in_stds.getD i 0) *
              Matrix.diagonal (poly_fit_scale Real.sqrt
                (poly_fit_lhs valid_len.toNat (fun i => in_stds.getD i 0))))
            (fun i : Fin valid_len.toNat =>
              (in_pts.getD i 0 - in_pts.getD 0 0) / in_stds.getD i 0) 0 *
          poly_fit_scale Real.sqrt
            (poly_fit_lhs valid_len.toNat (fun i => in_stds.getD i 0)) 0,
         colPivHouseholderQr_solve
            (poly_fit_lhs valid_len.toNat (fun i => in_stds.getD i 0) *
              Matrix.diagonal (poly_fit_scale Real.sqrt
                (poly_fit_lhs valid_len.toNat (fun i => in_stds.getD i 0))))
            (fun i : Fin valid_len.toNat =>
              (in_pts.getD i 0 - in_pts.getD 0 0) / in_stds.getD i 0) 1 *
          poly_fit_scale Real.sqrt
            (poly_fit_lhs valid_len.toNat (fun i => in_stds.getD i 0)) 1,
         colPivHouseholderQr_solve
            (poly_fit_lhs valid_len.toNat (fun i => in_stds.getD i 0) *
              Matrix.diagonal (poly_fit_scale Real.sqrt
                (poly_fit_lhs valid_len.toNat (fun i => in_stds.getD i 0))))
            (fun i : Fin valid_len.toNat =>
              (in_pts.getD i 0 - in_pts.getD 0 0) / in_stds.getD i 0) 2 *
          poly_fit_scale Real.sqrt
            (poly_fit_lhs valid_len.toNat (fun i => in_stds.getD i 0)) 2,
         in_pts.getD 0 0] := by
  have hscale : poly_fit_scale Real.sqrt lhs j = 1 / ∑ i, |lhs i j| := by
    simp only [poly_fit_scale, Real.sqrt_mul_self_eq_abs]
  refine ⟨hscale, ?_, ?_⟩
  · intro hne
    have hnn : 0 ≤ ∑ i, |lhs i j| := Finset.sum_nonneg (fun i _ => abs_nonneg _)
    simp only [Matrix.mul_diagonal, abs_mul, hscale]
    rw [← Finset.sum_mul, abs_of_nonneg (by positivity)]
    exact mul_one_div_cancel hne
  · intro MODEL_PATH_DISTANCE in_pts in_stds valid_len r hr
    by_cases hg : 0 < valid_len ∧ valid_len.toNat ≤ in_pts.length ∧
        valid_len.toNat ≤ in_stds.length ∧ valid_len.toNat ≤ MODEL_PATH_DISTANCE
    · rw [poly_fit_eq_some Real.sqrt MODEL_PATH_DISTANCE in_pts in_stds valid_len hg.1 hg.2.1
        hg.2.2.1 hg.2.2.2] at hr
      simp only [Option.some.injEq] at hr
      rw [← hr]
    · unfold poly_fit at hr
      simp only at hr
      rw [if_neg hg] at hr
      exact absurd hr (by simp)

/-- Witness for C9 (amended): the last column of the weighted basis matrix of the first
three rows with sigma 1 is not all zero, and after rescaling its absolute values sum
to 1. -/
theorem poly_fit_scale_reciprocal_abs_sum_witness :
    ∑ i, |(poly_fit_lhs 3 (fun _ => (1 : ℝ)) *
        Matrix.diagonal (poly_fit_scale Real.sqrt (poly_fit_lhs 3 (fun _ => (1 : ℝ))))) i 2| =
      1 :=
  (poly_fit_scale_reciprocal_abs_sum (poly_fit_lhs 3 (fun _ => (1 : ℝ))) 2).2.1
    (by
      simp only [Fin.sum_univ_three, poly_fit_lhs]
      norm_num [vander, X_IDXS, abs_of_nonneg])

/-- C10 (as stated, refuted): on the first call of `model_eval_frame` after `model_init`
with a desire vector whose entries are 1, the pulse for component 0 is 1, so the pulse is
not all zeros. -/
theorem first_frame_pulse_not_zero :
    (model_eval_frame sampleConstants (fun _ _ _ _ _ => (0 : ℚ)) 0 zeroOutputs
        (model_init false) (fun _ => 0) (some (fun _ => 1))).1.pulse_desire 0 = 1 ∧
    ¬ ∀ i, (model_eval_frame sampleConstants (fun _ _ _ _ _ => (0 : ℚ)) 0 zeroOutputs
        (model_init false) (fun _ => 0) (some (fun _ => 1))).1.pulse_desire i = 0 := by
  have h : (model_eval_frame sampleConstants (fun _ _ _ _ _ => (0 : ℚ)) 0 zeroOutputs
      (model_init false) (fun _ => 0) (some (fun _ => 1))).1.pulse_desire 0 = 1 := by
    norm_num [model_eval_frame, model_init, sampleConstants, sampleLayout]
  refine ⟨h, fun hall => ?_⟩
  rw [hall 0] at h
  norm_num at h

/-- C10 (amended): on the first call of `model_eval_frame` after `model_init`, for every
non-null desire input the pulse for component `i` is `desire_in[i]` when `i < DESIRE_LEN`
and `desire_in[i] > 0.99`, and 0 otherwise (the previous desire starts at zero); with a
null desire input the pulse stays all zeros. -/
theorem first_frame_pulse {α : Type} [LinearOrderedField α] (c : ModelConstants)
    (execute : (ℕ → α) → (ℕ → α) → (ℕ → α) → (ℕ → α) → ℕ → α) (PATH_IDX : ℕ)
    (uninit : ModelDataRaw α) (is_rhd : Bool) (new_frame_buf desire_in : ℕ → α) (i : ℕ) :
    (model_eval_frame c execute PATH_IDX uninit (model_init is_rhd) new_frame_buf
        (some desire_in)).1.pulse_desire i =
      (if i < c.DESIRE_LEN ∧ desire_in i > 99 / 100 then desire_in i else 0) ∧
    (model_eval_frame c execute PATH_IDX uninit (model_init is_rhd) new_frame_buf
        none).1.pulse_desire i = 0 := by
  refine ⟨?_, rfl⟩
  simp only [model_eval_frame, model_init, sub_zero]
  by_cases h1 : i < c.DESIRE_LEN
  · by_cases h2 : desire_in i > 99 / 100
    · simp [h1, h2]
    · simp [h1, h2]
  · simp [h1]

/-- C11: for all `uint32_t` values `frame_id` and `vipc_frame_id`, the frame age that
`model_publish` sets is `frame_id - vipc_frame_id` when `frame_id > vipc_frame_id` and 0
otherwise; the unsigned subtraction does not wrap (the age is the integer difference and
stays below `2^32`). Frame id 100 with vipc frame id 105 gives 0, frame id 110 with vipc
frame id 100 gives 10. -/
theorem frame_age_no_wrap {α : Type} [LinearOrderedField α] [FloorRing α]
    (c : ModelConstants) (f : FloatFns α) (MAX_FRAME_DROP : α) (DEBUG : Bool)
    (path_prob : α) (vipc_frame_id frame_id : ℕ) (frame_drop : α)
    (net_outputs : ModelDataRaw α) (timestamp_eof : ℕ)
    (hf : frame_id < 2 ^ 32) (hv : vipc_frame_id < 2 ^ 32) :
    (model_publish_event c f MAX_FRAME_DROP DEBUG path_prob vipc_frame_id frame_id frame_drop
        net_outputs timestamp_eof).body.frameAge =
      (if frame_id > vipc_frame_id then frame_id - vipc_frame_id else 0) ∧
    (frame_id > vipc_frame_id →
      ((model_publish_event c f MAX_FRAME_DROP DEBUG path_prob vipc_frame_id frame_id
        frame_drop net_outputs timestamp_eof).body.frameAge : ℤ) =
        (frame_id : ℤ) - (vipc_frame_id : ℤ)) ∧
    (model_publish_event c f MAX_FRAME_DROP DEBUG path_prob vipc_frame_id frame_id frame_drop
        net_outputs timestamp_eof).body.frameAge < 2 ^ 32 ∧
    (model_publish_event c f MAX_FRAME_DROP DEBUG path_prob 105 100 frame_drop
        net_outputs timestamp_eof).body.frameAge = 0 ∧
    (model_publish_event c f MAX_FRAME_DROP DEBUG path_prob 100 110 frame_drop
        net_outputs timestamp_eof).body.frameAge = 10 := by
  have hage : (model_publish_event c f MAX_FRAME_DROP DEBUG path_prob vipc_frame_id frame_id
      frame_drop net_outputs timestamp_eof).body.frameAge =
      (if frame_id > vipc_frame_id then frame_id - vipc_frame_id else 0) := by
    simp only [model_publish_event]
    split
    · exact Nat.mod_eq_of_lt (by omega)
    · rfl
  refine ⟨hage, ?_, ?_, ?_, ?_⟩
  · intro h
    rw [hage, if_pos h]
    omega
  · rw [hage]
    split <;> omega
  · simp [model_publish_event]
  · simp [model_publish_event]

/-- Witness for C11: frame id 110 with vipc frame id 100 over the rationals. -/
theorem frame_age_no_wrap_witness :
    (model_publish_event sampleConstants (⟨id, id, id, id⟩ : FloatFns ℚ) (1 / 20) false 1
        100 110 0 twoHorizonOutputs 0).body.frameAge = 10 := by
  have h := (frame_age_no_wrap sampleConstants (⟨id, id, id, id⟩ : FloatFns ℚ) (1 / 20) false
    1 100 110 0 twoHorizonOutputs 0 (by decide) (by decide)).1
  simpa using h

/-- C12: for every input buffer and every newly prepared frame, after `model_eval_frame`
the older half of the buffer is the previous newer half and the newer half is the new
frame, and this buffer is the one passed to the executor. After two consecutive frames
`f1`, `f2` the buffer is `(f1, f2)` whatever it held before, and after the first frame from
the state of `model_init` it is `(zeros, f1)`. -/
theorem frame_buffer_shift {α : Type} [LinearOrderedField α] (c : ModelConstants)
    (execute : (ℕ → α) → (ℕ → α) → (ℕ → α) → (ℕ → α) → ℕ → α) (PATH_IDX : ℕ)
    (uninit : ModelDataRaw α) (s : ModelState α) (f1 f2 : ℕ → α)
    (d1 d2 : Option (ℕ → α)) (is_rhd : Bool) :
    (∀ k, k < c.MODEL_FRAME_SIZE →
      (model_eval_frame c execute PATH_IDX uninit s f1 d1).1.input_frames k =
          s.input_frames (c.MODEL_FRAME_SIZE + k) ∧
      (model_eval_frame c execute PATH_IDX uninit s f1 d1).1.input_frames
          (c.MODEL_FRAME_SIZE + k) = f1 k) ∧
    (model_eval_frame c execute PATH_IDX uninit s f1 d1).1.output =
      execute (model_eval_frame c execute PATH_IDX uninit s f1 d1).1.input_frames
        (model_eval_frame c execute PATH_IDX uninit s f1 d1).1.pulse_desire
        s.traffic_convention s.output ∧
    (∀ k, k < c.MODEL_FRAME_SIZE →
      (model_eval_frame c execute PATH_IDX uninit
          (model_eval_frame c execute PATH_IDX uninit s f1 d1).1 f2 d2).1.input_frames k =
          f1 k ∧
      (model_eval_frame c execute PATH_IDX uninit
          (model_eval_frame c execute PATH_IDX uninit s f1 d1).1 f2 d2).1.input_frames
          (c.MODEL_FRAME_SIZE + k) = f2 k) ∧
    (∀ k, k < c.MODEL_FRAME_SIZE →
      (model_eval_frame c execute PATH_IDX uninit (model_init is_rhd) f1 d1).1.input_frames
          k = 0 ∧
      (model_eval_frame c execute PATH_IDX uninit (model_init is_rhd) f1 d1).1.input_frames
          (c.MODEL_FRAME_SIZE + k) = f1 k) := by
  have step : ∀ (t : ModelState α) (g : ℕ → α) (d : Option (ℕ → α)) (k : ℕ),
      k < c.MODEL_FRAME_SIZE →
      (model_eval_frame c execute PATH_IDX uninit t g d).1.input_frames k =
          t.input_frames (c.MODEL_FRAME_SIZE + k) ∧
      (model_eval_frame c execute PATH_IDX uninit t g d).1.input_frames
          (c.MODEL_FRAME_SIZE + k) = g k := by
    intro t g d k hk
    simp only [model_eval_frame]
    constructor
    · rw [if_neg (by omega), if_pos hk]
    · rw [if_pos (by omega)]
      congr 1
      omega
  refine ⟨step s f1 d1, rfl, ?_, ?_⟩
  · intro k hk
    refine ⟨?_, (step _ f2 d2 k hk).2⟩
    rw [(step _ f2 d2 k hk).1]
    exact (step s f1 d1 k hk).2
  · intro k hk
    refine ⟨?_, (step _ f1 d1 k hk).2⟩
    rw [(step _ f1 d1 k hk).1]
    rfl

/-- Witness for C12: a frame size of 6, the state of `model_init` and two frames with
constant content 1 and 2; after both, entry 0 of the buffer is 1 and entry 6 is 2. -/
theorem frame_buffer_shift_witness :
    (model_eval_frame sampleConstants (fun _ _ _ _ _ => (0 : ℚ)) 0 zeroOutputs
        (model_eval_frame sampleConstants (fun _ _ _ _ _ => (0 : ℚ)) 0 zeroOutputs
          (model_init false) (fun _ => 1) none).1 (fun _ => 2) none).1.input_frames 0 = 1 ∧
    (model_eval_frame sampleConstants (fun _ _ _ _ _ => (0 : ℚ)) 0 zeroOutputs
        (model_eval_frame sampleConstants (fun _ _ _ _ _ => (0 : ℚ)) 0 zeroOutputs
          (model_init false) (fun _ => 1) none).1 (fun _ => 2) none).1.input_frames
        (6 + 0) = 2 :=
  (frame_buffer_shift sampleConstants (fun _ _ _ _ _ => (0 : ℚ)) 0 zeroOutputs
    (model_init false) (fun _ => 1) (fun _ => 2) none none false).2.2.1 0 (by decide)

/-- C13: for consecutive frames with non-null desire inputs `d1` then `d2`, from any
earlier state, the pulse for component `i < DESIRE_LEN` on the second frame is non-zero
only if `d2[i] - d1[i] > 0.99`, and then equals `d2[i]`; when the same desire vector is
supplied on both frames the pulse on the second frame is zero for every component. -/
theorem desire_pulse_rising_edge {α : Type} [LinearOrderedField α] (c : ModelConstants)
    (execute : (ℕ → α) → (ℕ → α) → (ℕ → α) → (ℕ → α) → ℕ → α) (PATH_IDX : ℕ)
    (uninit : ModelDataRaw α) (s : ModelState α) (f1 f2 d1 d2 : ℕ → α) :
    (∀ i, i < c.DESIRE_LEN →
      (model_eval_frame c execute PATH_IDX uninit
        (model_eval_frame c execute PATH_IDX uninit s f1 (some d1)).1 f2
        (some d2)).1.pulse_desire i ≠ 0 →
      d2 i - d1 i > 99 / 100 ∧
      (model_eval_frame c execute PATH_IDX uninit
        (model_eval_frame c execute PATH_IDX uninit s f1 (some d1)).1 f2
        (some d2)).1.pulse_desire i = d2 i) ∧
    (∀ i, i < c.DESIRE_LEN →
      (model_eval_frame c execute PATH_IDX uninit
        (model_eval_frame c execute PATH_IDX uninit s f1 (some d1)).1 f2
        (some d1)).1.pulse_desire i = 0) := by
  have key : ∀ (d : ℕ → α) (i : ℕ), i < c.DESIRE_LEN →
      (model_eval_frame c execute PATH_IDX uninit
        (model_eval_frame c execute PATH_IDX uninit s f1 (some d1)).1 f2
        (some d)).1.pulse_desire i = if d i - d1 i > 99 / 100 then d i else 0 := by
    intro d i hi
    simp only [model_eval_frame, if_pos hi]
  constructor
  · intro i hi hne
    rw [key d2 i hi] at hne ⊢
    by_cases h : d2 i - d1 i > 99 / 100
    · exact ⟨h, if_pos h⟩
    · rw [if_neg h] at hne
      exact absurd rfl hne
  · intro i hi
    rw [key d1 i hi, if_neg]
    rw [sub_self]
    norm_num

/-- Witness for C13: eight desire components, the desire vector of ones supplied on two
consecutive frames after `model_init`; the second pulse for component 0 is zero. -/
theorem desire_pulse_rising_edge_witness :
    (model_eval_frame sampleConstants (fun _ _ _ _ _ => (0 : ℚ)) 0 zeroOutputs
        (model_eval_frame sampleConstants (fun _ _ _ _ _ => (0 : ℚ)) 0 zeroOutputs
          (model_init false) (fun _ => 0) (some (fun _ => 1))).1 (fun _ => 0)
        (some (fun _ => 1))).1.pulse_desire 0 = 0 :=
  (desire_pulse_rising_edge sampleConstants (fun _ _ _ _ _ => (0 : ℚ)) 0 zeroOutputs
    (model_init false) (fun _ => 0) (fun _ => 0) (fun _ => 1) (fun _ => 1)).2 0 (by decide)

/-- C14 (as stated, refuted): over the reals with the logistic sigmoid and the sample
constants, the probabilities that `model_publish` publishes for the left and the right
lane of the all-zero output are 1.8 and -1.8; neither is a value of the sigmoid. -/
theorem lane_prob_not_sigmoid :
    (model_publish_event sampleConstants
        ⟨Real.exp, Real.sqrt, fun x => 1 / (1 + Real.exp (-x)),
          fun x => Real.log (1 + Real.exp x)⟩
        (1 / 20) false 1 105 110 0 zeroOutputs 0).body.leftLane.map (fun p => p.prob) =
      some (18 / 10) ∧
    (model_publish_event sampleConstants
        ⟨Real.exp, Real.sqrt, fun x => 1 / (1 + Real.exp (-x)),
          fun x => Real.log (1 + Real.exp x)⟩
        (1 / 20) false 1 105 110 0 zeroOutputs 0).body.rightLane.map (fun p => p.prob) =
      some (-(18 / 10)) ∧
    ∀ x : ℝ, 1 / (1 + Real.exp (-x)) ≠ 18 / 10 ∧ 1 / (1 + Real.exp (-x)) ≠ -(18 / 10) := by
  have e1 : float_to_int (1 : ℝ) = 1 := by exact_mod_cast float_to_int_natCast (α := ℝ) 1
  refine ⟨?_, ?_, ?_⟩
  · obtain ⟨q, hq⟩ := fill_path_eq_some Real.exp Real.sqrt 192 false
      (zeroOutputs : ModelDataRaw ℝ).left_lane 1 (18 / 10) (by rw [e1]; decide)
      (by rw [e1]; decide) (by rw [e1]; decide)
    simp only [model_publish_event, sampleConstants]
    rw [hq]
    rfl
  · obtain ⟨q, hq⟩ := fill_path_eq_some Real.exp Real.sqrt 192 false
      (zeroOutputs : ModelDataRaw ℝ).right_lane 1 (-(18 / 10)) (by rw [e1]; decide)
      (by rw [e1]; decide) (by rw [e1]; decide)
    simp only [model_publish_event, sampleConstants]
    rw [hq]
    rfl
  · intro x
    obtain ⟨h0, h1⟩ := logistic_range x
    constructor
    · intro h
      rw [h] at h1
      norm_num at h1
    · intro h
      rw [h] at h0
      norm_num at h0

/-- C14 (amended): for every network output, when `MODEL_PATH_DISTANCE ≥ 1`, the
probability that `model_publish` publishes for the left lane is the literal 1.8 and the
one for the right lane the literal -1.8, whatever the lane-line probability logits are;
neither value lies strictly between 0 and 1. -/
theorem lane_prob_literal {α : Type} [LinearOrderedField α] [FloorRing α]
    (c : ModelConstants) (f : FloatFns α) (MAX_FRAME_DROP : α) (DEBUG : Bool)
    (path_prob : α) (vipc_frame_id frame_id : ℕ) (frame_drop : α)
    (net_outputs : ModelDataRaw α) (timestamp_eof : ℕ) (hM : 1 ≤ c.MODEL_PATH_DISTANCE) :
    (model_publish_event c f MAX_FRAME_DROP DEBUG path_prob vipc_frame_id frame_id frame_drop
        net_outputs timestamp_eof).body.leftLane.map (fun p => p.prob) = some (18 / 10) ∧
    (model_publish_event c f MAX_FRAME_DROP DEBUG path_prob vipc_frame_id frame_id frame_drop
        net_outputs timestamp_eof).body.rightLane.map (fun p => p.prob) =
      some (-(18 / 10)) ∧
    ¬ ((18 / 10 : α) < 1) ∧ ¬ ((0 : α) < -(18 / 10)) := by
  have e1 : float_to_int (1 : α) = 1 := by exact_mod_cast float_to_int_natCast (α := α) 1
  refine ⟨?_, ?_, by norm_num, by norm_num⟩
  · obtain ⟨q, hq⟩ := fill_path_eq_some f.exp f.sqrt c.MODEL_PATH_DISTANCE DEBUG
      net_outputs.left_lane 1 (18 / 10) (by rw [e1]; decide) (by rw [e1]; decide)
      (by rw [e1]; exact hM)
    simp only [model_publish_event]
    rw [hq]
    rfl
  · obtain ⟨q, hq⟩ := fill_path_eq_some f.exp f.sqrt c.MODEL_PATH_DISTANCE DEBUG
      net_outputs.right_lane 1 (-(18 / 10)) (by rw [e1]; decide) (by rw [e1]; decide)
      (by rw [e1]; exact hM)
    simp only [model_publish_event]
    rw [hq]
    rfl

/-- Witness for C14 (amended): the sample constants and the all-zero output over the
rationals. -/
theorem lane_prob_literal_witness :
    (model_publish_event sampleConstants (⟨id, id, id, id⟩ : FloatFns ℚ) (1 / 20) false 1
        105 110 0 zeroOutputs 0).body.leftLane.map (fun p => p.prob) = some (18 / 10) :=
  (lane_prob_literal sampleConstants (⟨id, id, id, id⟩ : FloatFns ℚ) (1 / 20) false 1
    105 110 0 zeroOutputs 0 (by decide)).1

/-- C15 (as stated, refuted): over the reals with the debug toggle set, for the data block
whose entries are all 2 and valid length 5, the points that `fill_path` publishes are not
the raw values `data[16*i]`. -/
theorem debug_points_not_raw :
    (fill_path Real.exp Real.sqrt 192 true (fun _ => (2 : ℝ)) 5 1).map (fun p => p.points) ≠
      some (some ((List.range 33).map (fun i => (fun _ => (2 : ℝ)) (16 * i)))) := by
  have e5 : float_to_int (5 : ℝ) = 5 := by exact_mod_cast float_to_int_natCast (α := ℝ) 5
  obtain ⟨q, hq⟩ := fill_path_eq_some Real.exp Real.sqrt 192 true (fun _ => (2 : ℝ)) 5 1
    (by rw [e5]; decide) (by rw [e5]; decide) (by rw [e5]; decide)
  rw [hq]
  simp only [Option.map_some', if_true, ne_eq, Option.some.injEq, e5]
  intro h
  have h0 := List.map_inj_left.mp h 0 (by simp)
  norm_num at h0

/-- C15 (amended): when the debug toggle is set and the valid length truncates to a row
count `n` with `1 ≤ n ≤ 33` (and `n ≤ MODEL_PATH_DISTANCE`), `fill_path` publishes
`stds[i] = exp(data[30*33 + 16*i])` for every `i` in 0..32 and `points[i] = data[16*i] -
data[0]` for `i < n`, `points[i] = data[16*i]` for `i ≥ n`: `poly_fit` subtracts the first
point from the first `n` entries of the caller's point array and returns that array. -/
theorem debug_arrays_after_fit {α : Type} [LinearOrderedField α] [FloorRing α]
    (exp sqrt : α → α) (MODEL_PATH_DISTANCE : ℕ) (data : ℕ → α) (valid_len prob : α)
    (h0 : 0 < float_to_int valid_len)
    (h33 : (float_to_int valid_len).toNat ≤ TRAJECTORY_SIZE)
    (hM : (float_to_int valid_len).toNat ≤ MODEL_PATH_DISTANCE) :
    (fill_path exp sqrt MODEL_PATH_DISTANCE true data valid_len prob).map (fun p => p.stds) =
      some (some ((List.range 33).map (fun i => exp (data (30 * 33 + 16 * i))))) ∧
    (fill_path exp sqrt MODEL_PATH_DISTANCE true data valid_len prob).map
        (fun p => p.points) =
      some (some ((List.range 33).map (fun i =>
        if i < (float_to_int valid_len).toNat then data (16 * i) - data 0
        else data (16 * i)))) ∧
    (poly_fit sqrt MODEL_PATH_DISTANCE ((List.range 33).map (fun i => data (16 * i)))
        ((List.range 33).map (fun i => exp (data (30 * 33 + 16 * i))))
        (float_to_int valid_len)).map Prod.fst =
      some ((List.range 33).map (fun i =>
        if i < (float_to_int valid_len).toNat then data (16 * i) - data 0
        else data (16 * i))) := by
  obtain ⟨q, hq⟩ := fill_path_eq_some exp sqrt MODEL_PATH_DISTANCE true data valid_len prob
    h0 h33 hM
  have hy : ((List.range 33).map (fun i => data (16 * i))).getD 0 0 = data 0 := by
    rw [getD_map_range _ 33 _ _ (by decide)]
  refine ⟨by rw [hq]; rfl, by rw [hq]; rfl, ?_⟩
  rw [poly_fit_eq_some sqrt MODEL_PATH_DISTANCE _ _ _ h0 (by simpa using h33)
    (by simpa using h33) hM]
  simp only [Option.map_some', hy, take_map_append_drop]

/-- Witness for C15 (amended): the data block whose entries are all 2 with valid length 5
over the rationals; the poly_fit call returns five zeros followed by 28 twos. -/
theorem debug_arrays_after_fit_witness :
    (poly_fit (fun x : ℚ => |x|) 192 ((List.range 33).map (fun _ => (2 : ℚ)))
        ((List.range 33).map (fun _ => (1 : ℚ))) (float_to_int (5 : ℚ))).map Prod.fst =
      some ((List.range 33).map (fun i =>
        if i < (float_to_int (5 : ℚ)).toNat then (2 : ℚ) - 2 else 2)) :=
  (debug_arrays_after_fit (fun _ => (1 : ℚ)) (fun x => |x|) 192 (fun _ => (2 : ℚ)) 5 1
    (by simp [float_to_int]) (by simp [float_to_int, TRAJECTORY_SIZE])
    (by simp [float_to_int])).2.2

/-- C16: the model message that `model_publish` sends is marked valid exactly when
`frame_drop < MAX_FRAME_DROP`, the odometry message that `posenet_publish` sends exactly
when `vipc_dropped_frames = 0`; each function appends exactly one message to those sent,
whatever the flag. -/
theorem validity_flags {α : Type} [LinearOrderedField α] [FloorRing α]
    (c : ModelConstants) (f : FloatFns α) (MAX_FRAME_DROP : α) (DEBUG : Bool)
    (path_prob M_PI : α) (pm : List (String × Event (ModelData α)))
    (pm' : List (String × Event (CameraOdometry α)))
    (vipc_frame_id frame_id vipc_dropped_frames : ℕ) (frame_drop : α)
    (net_outputs : ModelDataRaw α) (timestamp_eof : ℕ) :
    (∃ e, model_publish c f MAX_FRAME_DROP DEBUG path_prob pm vipc_frame_id frame_id
        vipc_dropped_frames frame_drop net_outputs timestamp_eof = pm ++ [("model", e)] ∧
      (e.valid = true ↔ frame_drop < MAX_FRAME_DROP)) ∧
    (model_publish c f MAX_FRAME_DROP DEBUG path_prob pm vipc_frame_id frame_id
        vipc_dropped_frames frame_drop net_outputs timestamp_eof).length = pm.length + 1 ∧
    (∃ e, posenet_publish f.softplus M_PI pm' vipc_frame_id frame_id vipc_dropped_frames
        frame_drop net_outputs timestamp_eof = pm' ++ [("cameraOdometry", e)] ∧
      (e.valid = true ↔ vipc_dropped_frames = 0)) ∧
    (posenet_publish f.softplus M_PI pm' vipc_frame_id frame_id vipc_dropped_frames
        frame_drop net_outputs timestamp_eof).length = pm'.length + 1 := by
  refine ⟨⟨_, rfl, ?_⟩, ?_, ⟨_, rfl, ?_⟩, ?_⟩
  · simp [model_publish_event]
  · simp [model_publish]
  · simp [posenet_publish_event]
  · simp [posenet_publish]

/-- C17: over the reals with `softplus(x) = log(1 + exp(x))`, for every raw network output
the uncertainties `std`, `relYStd`, `relVelStd`, `relAStd` that `fill_lead` publishes are
strictly positive, every translation standard deviation that `posenet_publish` publishes is
at least `1e-6` and every rotation standard deviation at least `(pi/180)*1e-6`, hence
strictly positive; `softplus` itself is strictly positive at every real input. -/
theorem softplus_uncertainties_positive (LEAD_MDN_N MDN_GROUP_SIZE MDN_VALS : ℕ)
    (sigmoid : ℝ → ℝ) (data : ℕ → ℝ) (mdn_max_idx t_offset : ℕ)
    (vipc_frame_id vipc_dropped_frames : ℕ) (net_outputs : ModelDataRaw ℝ)
    (timestamp_eof : ℕ) :
    (∀ x : ℝ, 0 < softplus Real.exp Real.log x) ∧
    0 < (fill_lead LEAD_MDN_N MDN_GROUP_SIZE MDN_VALS sigmoid (softplus Real.exp Real.log)
      data mdn_max_idx t_offset).std ∧
    0 < (fill_lead LEAD_MDN_N MDN_GROUP_SIZE MDN_VALS sigmoid (softplus Real.exp Real.log)
      data mdn_max_idx t_offset).relYStd ∧
    0 < (fill_lead LEAD_MDN_N MDN_GROUP_SIZE MDN_VALS sigmoid (softplus Real.exp Real.log)
      data mdn_max_idx t_offset).relVelStd ∧
    0 < (fill_lead LEAD_MDN_N MDN_GROUP_SIZE MDN_VALS sigmoid (softplus Real.exp Real.log)
      data mdn_max_idx t_offset).relAStd ∧
    (posenet_publish_event (softplus Real.exp Real.log) Real.pi vipc_frame_id
      vipc_dropped_frames net_outputs timestamp_eof).body.transStd.length = 3 ∧
    (posenet_publish_event (softplus Real.exp Real.log) Real.pi vipc_frame_id
      vipc_dropped_frames net_outputs timestamp_eof).body.rotStd.length = 3 ∧
    (∀ x ∈ (posenet_publish_event (softplus Real.exp Real.log) Real.pi vipc_frame_id
        vipc_dropped_frames net_outputs timestamp_eof).body.transStd,
      0 < x ∧ 1 / 1000000 ≤ x) ∧
    (∀ x ∈ (posenet_publish_event (softplus Real.exp Real.log) Real.pi vipc_frame_id
        vipc_dropped_frames net_outputs timestamp_eof).body.rotStd,
      0 < x ∧ Real.pi / 180 * (1 / 1000000) ≤ x) := by
  refine ⟨softplus_pos, ?_, ?_, ?_, ?_, by simp [posenet_publish_event],
    by simp [posenet_publish_event], ?_, ?_⟩
  · exact mul_pos (by norm_num) (softplus_pos _)
  · exact mul_pos (by norm_num) (softplus_pos _)
  · exact softplus_pos _
  · exact softplus_pos _
  · intro x hx
    simp only [posenet_publish_event, List.mem_map, List.mem_range] at hx
    obtain ⟨i, -, rfl⟩ := hx
    have h := softplus_pos (net_outputs.pose (6 + i))
    constructor <;> linarith
  · intro x hx
    simp only [posenet_publish_event, List.mem_map, List.mem_range] at hx
    obtain ⟨i, -, rfl⟩ := hx
    have h := softplus_pos (net_outputs.pose (9 + i))
    have hpi := Real.pi_pos
    constructor
    · positivity
    · have : Real.pi * (softplus Real.exp Real.log (net_outputs.pose (9 + i)) + 1 / 1000000) /
          180 - Real.pi / 180 * (1 / 1000000) =
          Real.pi / 180 * softplus Real.exp Real.log (net_outputs.pose (9 + i)) := by ring
      have hp : 0 < Real.pi / 180 * softplus Real.exp Real.log (net_outputs.pose (9 + i)) := by
        positivity
      linarith

/-- C18: after `model_init`, for every row `i` in 0..32 and column `j` in 0..2 the entry
`vander(i, j)` is `X_IDXS[i]^(3 - j)` with `X_IDXS[i] = (192/1024)*i^2`; the sample
positions are strictly increasing, start at 0 and end at 192, `T_IDXS` ends at 10, and the
three columns restricted to any four or more leading rows are linearly independent. -/
theorem vander_powers_independent {α : Type} [LinearOrderedField α] :
    (∀ i j, i < 33 → j < 3 → (vander i j : α) = X_IDXS i ^ (3 - j)) ∧
    (∀ i : ℕ, (X_IDXS i : α) = 192 / 1024 * (i : α) ^ 2) ∧
    (∀ i j : ℕ, i < j → (X_IDXS i : α) < X_IDXS j) ∧
    (X_IDXS 0 : α) = 0 ∧
    (X_IDXS 32 : α) = 192 ∧
    (T_IDXS 32 : α) = 10 ∧
    (∀ n, 4 ≤ n → ∀ u0 u1 u2 : α,
      (∀ i, i < n → u0 * vander i 0 + u1 * vander i 1 + u2 * vander i 2 = 0) →
      u0 = 0 ∧ u1 = 0 ∧ u2 = 0) := by
  refine ⟨?_, fun i => rfl, ?_, by simp [X_IDXS], by norm_num [X_IDXS], by norm_num [T_IDXS],
    ?_⟩
  · intro i j hi hj
    exact vander_entry i hi ⟨j, hj⟩
  · intro i j hij
    unfold X_IDXS
    have h : (i : α) < (j : α) := Nat.cast_lt.mpr hij
    have hi : (0 : α) ≤ (i : α) := Nat.cast_nonneg i
    have hsq : (i : α) ^ 2 < (j : α) ^ 2 := pow_lt_pow_left₀ h hi (by norm_num)
    linarith
  · intro n hn u0 u1 u2 h
    have e1 := h 1 (by omega)
    have e2 := h 2 (by omega)
    have e3 := h 3 (by omega)
    norm_num [vander, X_IDXS] at e1 e2 e3
    refine ⟨?_, ?_, ?_⟩ <;> linarith

/-- C19: when `OTHER_META_SIZE ≥ 4`, every index that `fill_meta` reads through
`net_outputs.meta` (which `model_eval_frame` sets to `&output[DESIRE_STATE_IDX]`) lies at an
absolute index in `[DESIRE_STATE_IDX, POSE_IDX)`, and `fill_meta` depends on no other
entry; the desire state occupies exactly `[DESIRE_STATE_IDX, META_IDX)` and the desire
prediction ends exactly at `POSE_IDX`. -/
theorem meta_reads_within_meta_segment {α : Type} [LinearOrderedField α]
    (c : ModelConstants) (execute : (ℕ → α) → (ℕ → α) → (ℕ → α) → (ℕ → α) → ℕ → α)
    (PATH_IDX : ℕ) (uninit : ModelDataRaw α) (s : ModelState α) (new_frame_buf : ℕ → α)
    (desire_in : Option (ℕ → α)) (h4 : 4 ≤ c.OTHER_META_SIZE) :
    (∀ k, (model_eval_frame c execute PATH_IDX uninit s new_frame_buf desire_in).2.meta k =
      (model_eval_frame c execute PATH_IDX uninit s new_frame_buf desire_in).1.output
        (DESIRE_STATE_IDX c.toLayoutConstants + k)) ∧
    (∀ m m' : ℕ → α,
      (∀ k ∈ fill_meta_reads c.DESIRE_LEN c.OTHER_META_SIZE c.DESIRE_PRED_SIZE, m k = m' k) →
      fill_meta c.DESIRE_LEN c.OTHER_META_SIZE c.DESIRE_PRED_SIZE m =
        fill_meta c.DESIRE_LEN c.OTHER_META_SIZE c.DESIRE_PRED_SIZE m') ∧
    (∀ k ∈ fill_meta_reads c.DESIRE_LEN c.OTHER_META_SIZE c.DESIRE_PRED_SIZE,
      DESIRE_STATE_IDX c.toLayoutConstants ≤ DESIRE_STATE_IDX c.toLayoutConstants + k ∧
      DESIRE_STATE_IDX c.toLayoutConstants + k < POSE_IDX c.toLayoutConstants) ∧
    (∀ a, (∃ i, i < c.DESIRE_LEN ∧ a = DESIRE_STATE_IDX c.toLayoutConstants + (0 + i)) ↔
      DESIRE_STATE_IDX c.toLayoutConstants ≤ a ∧ a < META_IDX c.toLayoutConstants) ∧
    DESIRE_STATE_IDX c.toLayoutConstants +
        (c.DESIRE_LEN + c.OTHER_META_SIZE + c.DESIRE_PRED_SIZE) =
      POSE_IDX c.toLayoutConstants := by
  refine ⟨fun k => rfl, ?_, ?_, ?_, ?_⟩
  · intro m m' h
    have hd : ∀ i, i < c.DESIRE_LEN → m (0 + i) = m' (0 + i) := fun i hi =>
      h _ (List.mem_append_left _ (List.mem_append_left _
        (List.mem_map.mpr ⟨i, List.mem_range.mpr hi, rfl⟩)))
    have hs : ∀ j, j < 4 → m (c.DESIRE_LEN + j) = m' (c.DESIRE_LEN + j) := fun j hj =>
      h _ (List.mem_append_left _ (List.mem_append_right _
        (by interval_cases j <;> simp)))
    have hp : ∀ i, i < c.DESIRE_PRED_SIZE →
        m (c.DESIRE_LEN + c.OTHER_META_SIZE + i) = m' (c.DESIRE_LEN + c.OTHER_META_SIZE + i) :=
      fun i hi => h _ (List.mem_append_right _
        (List.mem_map.mpr ⟨i, List.mem_range.mpr hi, rfl⟩))
    simp only [fill_meta, MetaData.mk.injEq]
    refine ⟨?_, hs 0 (by omega), hs 1 (by omega), hs 2 (by omega), hs 3 (by omega), ?_⟩
    · exact List.map_congr_left (fun i hi => hd i (List.mem_range.mp hi))
    · exact List.map_congr_left (fun i hi => hp i (List.mem_range.mp hi))
  · intro k hk
    simp only [fill_meta_reads, List.mem_append, List.mem_map, List.mem_range, List.mem_cons,
      List.mem_singleton, List.not_mem_nil, or_false] at hk
    simp only [POSE_IDX, META_IDX]
    rcases hk with (⟨i, hi, rfl⟩ | h) | ⟨i, hi, rfl⟩
    · omega
    · omega
    · omega
  · intro a
    simp only [META_IDX]
    constructor
    · rintro ⟨i, hi, rfl⟩
      omega
    · rintro ⟨h1, h2⟩
      exact ⟨a - DESIRE_STATE_IDX c.toLayoutConstants, by omega, by omega⟩
  · simp only [POSE_IDX, META_IDX]
    omega

/-- Witness for C19: with the sample constants (`OTHER_META_SIZE = 4`) the read of the
last scalar, at offset `DESIRE_LEN + 3 = 11`, lies below `POSE_IDX`. -/
theorem meta_reads_within_meta_segment_witness :
    DESIRE_STATE_IDX sampleLayout + 11 < POSE_IDX sampleLayout :=
  ((meta_reads_within_meta_segment sampleConstants (fun _ _ _ _ _ => (0 : ℚ)) 0 zeroOutputs
    (model_init false) (fun _ => 0) none (by decide)).2.2.1 11 (by decide)).2

/-- C20 (evaluation of the code): with `MODEL_PATH_DISTANCE = 192` the raw valid length 100
is inside the clamp range and stays 100, which `poly_fit` receives as the row count 100;
that exceeds the 33 entries of the point and sigma arrays of `fill_path` and the 33 rows of
the basis matrix that `model_init` fills, so the fit leaves the arrays: `fill_path` has no
result, nor has the path of the message that `model_publish` builds from a plan segment
holding that valid length. -/
theorem path_fit_row_count_exceeds_arrays :
    clamp_valid_len 192 (100 : ℚ) = 100 ∧
    float_to_int (100 : ℚ) = 100 ∧
    fill_path (fun _ => (1 : ℚ)) (fun x => |x|) 192 false (fun _ => 0) 100 1 = none ∧
    (model_publish_event sampleConstants (⟨fun _ => 1, fun x => |x|, id, id⟩ : FloatFns ℚ)
        (1 / 20) false 1 105 110 0 longPlanOutputs 0).body.path = none := by
  have hc : clamp_valid_len 192 (100 : ℚ) = 100 := by
    norm_num [clamp_valid_len]
  have hf : float_to_int (100 : ℚ) = 100 := by
    exact_mod_cast float_to_int_natCast (α := ℚ) 100
  have hidx : plan_mhp_max_idx 5 1981 longPlanOutputs = 0 := by
    simp [plan_mhp_max_idx, List.range', longPlanOutputs, zeroOutputs]
  refine ⟨hc, hf, ?_, ?_⟩
  · exact fill_path_eq_none _ _ _ _ _ _ _ (by rw [hf]; decide)
  · simp only [model_publish_event, sampleConstants, sampleLayout, hidx]
    apply fill_path_eq_none
    have hv : longPlanOutputs.plan (0 * 1981 + 15 * 33) = 100 := by
      simp [longPlanOutputs]
    rw [hv, hc, hf]
    decide

end Driving
